import Mathlib

/-
  Verification of the mistica-design-cp-server heuristic analysis and mapping
  pipeline.

  The TypeScript sources are shallowly embedded: JS strings are modelled as
  lists of characters (`Str`), JS numbers as `ℤ` (integer scores) or `ℚ`
  (confidence values; the arithmetic involved is exact decimal arithmetic, so
  the rational model is faithful for the comparisons at stake), JS arrays as
  `List`, and the stable `Array.prototype.sort` as `List.mergeSort` (which is
  stable, like the sort of every modern JS engine; for a consistent comparator
  a stable sort has a unique result, so this is the faithful model).
  Regex `.test` probes over the input markup are translated to executable
  substring / ordered-substring searches with the same acceptance behaviour.
-/

/- Batteries marks the core rational arithmetic `@[irreducible]`; restoring
reducibility lets concrete confidence values be evaluated by `decide`. -/
attribute [local semireducible] Rat.add Rat.mul Rat.inv Rat.sub Rat.ofScientific

/-- JS strings are modelled as lists of characters. -/
abbrev Str := List Char

/-- Shorthand to turn a Lean string literal into the `Str` model. -/
def str (s : String) : Str := s.data

/-- Model of `String.prototype.toLowerCase` (ASCII case folding; every string
the embedded code lowercases is ASCII). -/
def strToLower (s : Str) : Str := s.map Char.toLower

/-- JS whitespace test for the characters that occur in this code base
(space, tab, CR, LF); used by `trim` and by the `\s` character class. -/
def isSpaceChar (c : Char) : Bool :=
  c == ' ' || c == '\t' || c == '\n' || c == '\r'

/-- Model of `String.prototype.trim`. -/
def jsTrim (s : Str) : Str :=
  ((s.dropWhile isSpaceChar).reverse.dropWhile isSpaceChar).reverse

/-- Model of `String.prototype.includes` (substring containment). -/
def containsSub : Str → Str → Bool
  | [], p => p.isEmpty
  | l@(_ :: t), p => p.isPrefixOf l || containsSub t p

/-- Model of `String.prototype.endsWith`. -/
def endsWithSub (l p : Str) : Bool := p.reverse.isPrefixOf l.reverse

/-- Separator class of the regex `[\s\-_]` used by `extractSearchTerms`. -/
def isTermSep (c : Char) : Bool := isSpaceChar c || c == '-' || c == '_'

/-- Splitting on single separator characters.  The source splits on the regex
`[\s\-_]+`; splitting on each separator instead yields extra empty fragments
between consecutive separators, all of which are removed by the subsequent
`length > 1` filter, so the final term list is identical. -/
def splitOnSeps : Str → List Str
  | [] => [[]]
  | c :: t =>
    if isTermSep c then [] :: splitOnSeps t
    else match splitOnSeps t with
      | [] => [[c]]
      | h :: r => (c :: h) :: r

/-- Helper of `dedupKeepFirst`: `seen` collects the values already emitted. -/
def dedupKeepFirstAux (seen : List Str) : List Str → List Str
  | [] => []
  | x :: t =>
    if seen.contains x then dedupKeepFirstAux seen t
    else x :: dedupKeepFirstAux (x :: seen) t

/-- Model of `[...new Set(xs)]`: deduplication keeping first occurrences. -/
def dedupKeepFirst (l : List Str) : List Str := dedupKeepFirstAux [] l

/-- One insertion step of the stable descending sort.  An element moves left
past exactly the elements with a strictly smaller key, so equal keys keep
their original relative order — the behaviour of the stable JS
`Array.prototype.sort` under the comparator `(a, b) => key(b) - key(a)`. -/
def insertDescBy {α : Type} {β : Type} [LinearOrder β] (key : α → β) (x : α) :
    List α → List α
  | [] => [x]
  | y :: t => if key y < key x then x :: y :: t else y :: insertDescBy key x t

/-- Stable descending sort by a key; model of
`.sort((a, b) => key(b) - key(a))`.  For a consistent comparator every stable
sort produces the same list, so insertion sort is a faithful model of the JS
engine sort. -/
def sortDescBy {α : Type} {β : Type} [LinearOrder β] (key : α → β) :
    List α → List α
  | [] => []
  | x :: t => insertDescBy key x (sortDescBy key t)

/- ===============================================================
   SearchEngine.ts
   =============================================================== -/

/-- Catalog component (src/src/types/interfaces.ts `MisticaComponent`); only
the fields the search engine and the mapper read are modelled. -/
structure MisticaComponent where
  name : Str
  category : Str
  description : Str
deriving DecidableEq, Repr

/-- SearchEngine.extractSearchTerms (src/src/search/SearchEngine.ts lines
34-37). -/
def extractSearchTerms (query : Str) : List Str :=
  let terms := (splitOnSeps query).filter (fun t => 1 < t.length)
  dedupKeepFirst (query :: terms)

/-- SearchEngine.extractContextualKeywords (SearchEngine.ts lines 39-63). -/
def extractContextualKeywords (query : Str) : List Str :=
  (if containsSub query (str "fixed") || containsSub query (str "footer") then
    [str "layout", str "footer", str "fixed"] else []) ++
  (if containsSub query (str "header") then
    [str "layout", str "header", str "navigation"] else []) ++
  (if containsSub query (str "modal") then
    [str "overlay", str "dialog", str "popup"] else []) ++
  (if containsSub query (str "card") then
    [str "container", str "content", str "card"] else []) ++
  (if containsSub query (str "form") then
    [str "input", str "field", str "form", str "validation"] else []) ++
  (if containsSub query (str "list") then
    [str "list", str "item", str "collection"] else []) ++
  (if containsSub query (str "button") then
    [str "action", str "click", str "interactive"] else []) ++
  (if containsSub query (str "input") || containsSub query (str "field") then
    [str "form", str "data", str "entry"] else []) ++
  (if containsSub query (str "pin") || containsSub query (str "security") ||
      containsSub query (str "code") then
    [str "security", str "authentication", str "input"] else [])

/-- SearchEngine.getExpandedTermMappings (SearchEngine.ts lines 194-245). -/
def getExpandedTermMappings : List (Str × List Str) :=
  [ (str "pin", [str "pinfield", str "code", str "security", str "input", str "verification"]),
    (str "pinfield", [str "pin", str "code", str "security", str "otp", str "verification"]),
    (str "field", [str "textfield", str "input", str "form", str "entry"]),
    (str "input", [str "textfield", str "field", str "entry", str "form"]),
    (str "code", [str "pin", str "otp", str "verification", str "security"]),
    (str "security", [str "pin", str "otp", str "verification", str "authentication"]),
    (str "footer", [str "layout", str "fixed", str "bottom", str "sticky"]),
    (str "header", [str "layout", str "top", str "navigation", str "navbar"]),
    (str "fixed", [str "footer", str "header", str "layout", str "sticky"]),
    (str "layout", [str "grid", str "stack", str "box", str "container", str "wrapper"]),
    (str "modal", [str "dialog", str "popup", str "overlay", str "sheet"]),
    (str "button", [str "action", str "click", str "primary", str "secondary", str "cta"]),
    (str "primary", [str "button", str "main", str "action"]),
    (str "secondary", [str "button", str "auxiliary", str "action"]),
    (str "navigation", [str "navbar", str "menu", str "tabs", str "breadcrumb"]),
    (str "navbar", [str "navigation", str "menu", str "header"]),
    (str "menu", [str "navigation", str "dropdown", str "list"]),
    (str "card", [str "container", str "content", str "box"]),
    (str "list", [str "item", str "collection", str "menu"]),
    (str "text", [str "label", str "title", str "heading", str "paragraph"]),
    (str "icon", [str "symbol", str "graphic", str "visual"]),
    (str "loading", [str "spinner", str "progress", str "wait"]),
    (str "error", [str "feedback", str "alert", str "warning"]),
    (str "success", [str "feedback", str "confirmation", str "check"]),
    (str "form", [str "input", str "field", str "validation", str "submit"]),
    (str "validation", [str "error", str "check", str "verify"]),
    (str "submit", [str "button", str "action", str "send"]),
    (str "table", [str "data", str "grid", str "list", str "row"]),
    (str "chart", [str "graph", str "visualization", str "data"]),
    (str "mistica", [str "telefonica", str "brand", str "design", str "system"]),
    (str "telefonica", [str "mistica", str "brand", str "company"]) ]

/-- Lookup `termMappings[term] || []`. -/
def lookupMapping (term : Str) : List Str :=
  ((getExpandedTermMappings.find? (fun p => p.1 == term)).map (fun p => p.2)).getD []

/-- Per-term name bonus of `calculateRelevanceScore` (SearchEngine.ts lines
78-85): an equality bonus of 90 and, independently, a containment bonus of
80 / 70 / 60 depending on whether the term is a prefix, a suffix, or an inner
substring of the name.  Both `if` statements of the source are separate, so on
`name === term` both fire. -/
def nameTermScore (name term : Str) : ℤ :=
  (if name == term then 90 else 0) +
  (if containsSub name term then
    (if term.isPrefixOf name then 80
     else if endsWithSub name term then 70
     else 60)
   else 0)

/-- SearchEngine.getFunctionalityScore, per-term switch body (SearchEngine.ts
lines 126-189). -/
def functionalityTermScore (name description term : Str) : ℤ :=
  if term == str "pinfield" || term == str "pin field" || term == str "pin code" ||
     term == str "security" then
    (if containsSub name (str "pin") || containsSub name (str "code") ||
        containsSub name (str "security") then 60 else 0) +
    (if containsSub description (str "código") || containsSub description (str "pin") ||
        containsSub description (str "segurança") then 40 else 0)
  else if term == str "fixed footer" || term == str "footer layout" ||
          term == str "button fixed footer" then
    (if containsSub name (str "footer") || containsSub name (str "layout") ||
        containsSub name (str "fixed") then 60 else 0) +
    (if containsSub description (str "footer") || containsSub description (str "rodapé") ||
        containsSub description (str "fixo") then 40 else 0)
  else if term == str "input" || term == str "field" then
    (if containsSub name (str "input") || containsSub name (str "field") ||
        containsSub name (str "textfield") then 50 else 0)
  else if term == str "text" || term == str "label" then
    (if containsSub name (str "text") || containsSub name (str "label") ||
        containsSub name (str "title") then 45 else 0)
  else 0

/-- SearchEngine.getFunctionalityScore (SearchEngine.ts lines 117-192). -/
def getFunctionalityScore (c : MisticaComponent) (originalQuery : Str)
    (searchTerms : List Str) : ℤ :=
  let name := strToLower c.name
  let description := strToLower c.description
  ((searchTerms ++ [originalQuery]).map (functionalityTermScore name description)).sum

/-- SearchEngine.calculateRelevanceScore (SearchEngine.ts lines 65-115). -/
def calculateRelevanceScore (c : MisticaComponent) (originalQuery : Str)
    (searchTerms contextualKeywords : List Str) : ℤ :=
  let name := strToLower c.name
  let category := strToLower c.category
  let description := strToLower c.description
  if name == originalQuery then 100
  else
    ((searchTerms.map (fun term => nameTermScore name term)).sum) +
    ((searchTerms.map (fun term =>
      ((lookupMapping term).map (fun mt =>
        (if containsSub name mt then (50 : ℤ) else 0) +
        (if containsSub description mt then (30 : ℤ) else 0))).sum)).sum) +
    ((contextualKeywords.map (fun kw =>
      (if containsSub name kw then (40 : ℤ) else 0) +
      (if containsSub description kw then (25 : ℤ) else 0) +
      (if containsSub category kw then (20 : ℤ) else 0))).sum) +
    ((searchTerms.map (fun term =>
      if category == term || category == term ++ str "s" || term == category ++ str "s"
      then (35 : ℤ) else 0)).sum) +
    getFunctionalityScore c originalQuery searchTerms

/-- SearchEngine.smartSearchComponents (SearchEngine.ts lines 4-32).
`.sort((a, b) => b.score - a.score)` is a stable descending sort, modelled by
`sortDescBy`. -/
def smartSearchComponents (components : List MisticaComponent) (query : Str) :
    List MisticaComponent :=
  if query == [] || jsTrim query == [] then components
  else
    let normalizedQuery := jsTrim (strToLower query)
    let searchTerms := extractSearchTerms normalizedQuery
    let contextualKeywords := extractContextualKeywords normalizedQuery
    (sortDescBy (fun p => p.2)
      ((components.map (fun c =>
        (c, calculateRelevanceScore c normalizedQuery searchTerms contextualKeywords))).filter
        (fun p => 0 < p.2))).map (fun p => p.1)


/- ===============================================================
   TypographyAnalyzer (src/unnamed/part_004)
   =============================================================== -/

/-- The ten Mística text levels (`TypographyAnalysis.textLevel`). -/
inductive TextLevel where
  | text1 | text2 | text3 | text4 | text5 | text6 | text7 | text8 | text9 | text10
deriving DecidableEq, Repr

/-- The four weight classes (`TypographyAnalysis.weight`). -/
inductive FontWeight where
  | light | regular | medium | bold
deriving DecidableEq, Repr

/-- One row of `TEXT_SCALE_MAPPING`. -/
structure ScaleEntry where
  minSize : ℚ
  maxSize : ℚ
  weights : List FontWeight
deriving DecidableEq, Repr

/-- The `TEXT_SCALE_MAPPING` table viewed as a keyed lookup (the JS object
indexing `this.TEXT_SCALE_MAPPING[textLevel]`, which always succeeds). -/
def scaleConfig : TextLevel → ScaleEntry
  | .text1 => ⟨56, 64, [.light, .regular, .medium]⟩
  | .text2 => ⟨40, 48, [.light, .regular, .medium]⟩
  | .text3 => ⟨32, 40, [.light, .regular, .medium]⟩
  | .text4 => ⟨28, 32, [.light, .regular, .medium]⟩
  | .text5 => ⟨24, 28, [.light, .regular, .medium]⟩
  | .text6 => ⟨20, 24, [.regular, .medium]⟩
  | .text7 => ⟨18, 20, [.regular, .medium]⟩
  | .text8 => ⟨16, 18, [.regular, .medium]⟩
  | .text9 => ⟨14, 16, [.regular, .medium]⟩
  | .text10 => ⟨12, 14, [.regular, .medium]⟩

/-- Declaration order of the table keys (the `Object.entries` iteration order
of `TEXT_SCALE_MAPPING`). -/
def textLevels : List TextLevel :=
  [.text1, .text2, .text3, .text4, .text5, .text6, .text7, .text8, .text9, .text10]

/-- The `TEXT_SCALE_MAPPING` table in its `Object.entries` iteration order
(part_004 lines 13-24). -/
def TEXT_SCALE_MAPPING : List (TextLevel × ScaleEntry) :=
  [(.text1, scaleConfig .text1), (.text2, scaleConfig .text2),
   (.text3, scaleConfig .text3), (.text4, scaleConfig .text4),
   (.text5, scaleConfig .text5), (.text6, scaleConfig .text6),
   (.text7, scaleConfig .text7), (.text8, scaleConfig .text8),
   (.text9, scaleConfig .text9), (.text10, scaleConfig .text10)]

/-- The `for (const [level, config] of Object.entries(...))` loop of
`determineTextLevel`: first table row whose `[minSize, maxSize]` interval
contains the font size. -/
def findLevel (fontSize : ℚ) : List (TextLevel × ScaleEntry) → Option TextLevel
  | [] => none
  | p :: t =>
    if p.2.minSize ≤ fontSize ∧ fontSize ≤ p.2.maxSize then some p.1
    else findLevel fontSize t

/-- TypographyAnalyzer.determineTextLevel (part_004 lines 240-258): table scan
first, then the fallback staircase. -/
def determineTextLevel (fontSize : ℚ) : TextLevel :=
  match findLevel fontSize TEXT_SCALE_MAPPING with
  | some l => l
  | none =>
    if 56 ≤ fontSize then .text1
    else if 40 ≤ fontSize then .text2
    else if 32 ≤ fontSize then .text3
    else if 28 ≤ fontSize then .text4
    else if 24 ≤ fontSize then .text5
    else if 20 ≤ fontSize then .text6
    else if 18 ≤ fontSize then .text7
    else if 16 ≤ fontSize then .text8
    else if 14 ≤ fontSize then .text9
    else .text10

/-- Ordinal of a text level (text1 ↦ 1 … text10 ↦ 10), for stating the
monotonicity of the fallback staircase. -/
def levelNumber : TextLevel → ℕ
  | .text1 => 1 | .text2 => 2 | .text3 => 3 | .text4 => 4 | .text5 => 5
  | .text6 => 6 | .text7 => 7 | .text8 => 8 | .text9 => 9 | .text10 => 10

/-- TypographyAnalyzer.calculateTypographyConfidence (part_004 lines 277-297):
base 0.5, +0.3 when the font size lies in the chosen level range, +0.2 when
the weight is allowed for that level, capped by `Math.min(confidence, 1.0)`.
The sequential `confidence += …` accumulation is written as one sum.  The
`fontWeight` string parameter is accepted and ignored, exactly as in the
source. -/
def calculateTypographyConfidence (fontSize : ℚ) (fontWeight : Str)
    (textLevel : TextLevel) (weight : FontWeight) : ℚ :=
  min (((0.5 : ℚ) +
    (if (scaleConfig textLevel).minSize ≤ fontSize ∧
        fontSize ≤ (scaleConfig textLevel).maxSize
     then (0.3 : ℚ) else 0)) +
    (if weight ∈ (scaleConfig textLevel).weights then (0.2 : ℚ) else 0)) 1

/-- A pixel size outside every documented `[minSize, maxSize]` range of the
table — the hypothesis of the fallback-staircase claim. -/
def outsideAllRanges (s : ℚ) : Prop :=
  ∀ p ∈ TEXT_SCALE_MAPPING, ¬(p.2.minSize ≤ s ∧ s ≤ p.2.maxSize)

instance (s : ℚ) : Decidable (outsideAllRanges s) := by
  unfold outsideAllRanges
  infer_instance


/- ===============================================================
   SkinVarsAnalyzer (src/unnamed/part_003)
   =============================================================== -/

/-- Greedy run of decimal digits (the regex fragment `\d+`). -/
def takeDigits (l : Str) : Str × Str := (l.takeWhile Char.isDigit, l.dropWhile Char.isDigit)

/-- Numeric value of a digit run (JS `parseInt`). -/
def digitsToNat (l : Str) : ℕ := l.foldl (fun acc c => acc * 10 + (c.toNat - 48)) 0

/-- Attempt to match the regex `rgb\((\d+),\s*(\d+),\s*(\d+)\)` at the start
of the string, yielding the three captured numbers. -/
def tryParseRgbHere (l : Str) : Option (ℕ × ℕ × ℕ) :=
  if (str "rgb(").isPrefixOf l then
    let rest := l.drop 4
    let (d1, r1) := takeDigits rest
    if d1 = [] then none else
    match r1 with
    | ',' :: r2 =>
      let (d2, r3) := takeDigits (r2.dropWhile isSpaceChar)
      if d2 = [] then none else
      match r3 with
      | ',' :: r4 =>
        let (d3, r5) := takeDigits (r4.dropWhile isSpaceChar)
        if d3 = [] then none else
        match r5 with
        | ')' :: _ => some (digitsToNat d1, digitsToNat d2, digitsToNat d3)
        | _ => none
      | _ => none
    | _ => none
  else none

/-- First match of the `rgb(...)` pattern anywhere in the string (JS
`String.prototype.match` without the global flag). -/
def findRgb : Str → Option (ℕ × ℕ × ℕ)
  | [] => none
  | l@(_ :: t) =>
    match tryParseRgbHere l with
    | some v => some v
    | none => findRgb t

/-- Lowercase hexadecimal digit. -/
def hexDigit (n : ℕ) : Char := if n < 10 then Char.ofNat (48 + n) else Char.ofNat (87 + n)

/-- Hexadecimal digits of `n` (JS `Number.prototype.toString(16)`), with an
explicit fuel argument (`n` itself is always enough fuel). -/
def natToHexAux : ℕ → ℕ → Str
  | 0, _ => []
  | fuel + 1, n => if n = 0 then [] else natToHexAux fuel (n / 16) ++ [hexDigit (n % 16)]

/-- JS `n.toString(16)` for natural `n`. -/
def natToHex (n : ℕ) : Str := if n = 0 then str "0" else natToHexAux n n

/-- JS `.padStart(2, "0")`. -/
def padStart2 (l : Str) : Str := if l.length < 2 then '0' :: l else l

/-- SkinVarsAnalyzer.normalizeColor (part_003 lines 151-170): trim and
lowercase, convert a first `rgb(r,g,b)` occurrence to 6-digit hex, expand a
3-digit hex shorthand. -/
def normalizeColor (color : Str) : Str :=
  let c := strToLower (jsTrim color)
  match findRgb c with
  | some (r, g, b) =>
    str "#" ++ padStart2 (natToHex r) ++ padStart2 (natToHex g) ++ padStart2 (natToHex b)
  | none =>
    if (str "#").isPrefixOf c ∧ c.length = 4 then
      match c with
      | _ :: c1 :: c2 :: c3 :: _ => ['#', c1, c1, c2, c2, c3, c3]
      | _ => c
    else c

/-- SkinVarsAnalyzer.colorsMatch (part_003 lines 176-178). -/
def colorsMatch (color1 color2 : Str) : Bool := color1 == color2

/-- SkinVarsAnalyzer.determineColorContext (part_003 lines 138-149). -/
def determineColorContext (property element : Str) : Str :=
  if containsSub property (str "background") then str "background"
  else if containsSub property (str "border") then str "border"
  else if property == str "color" then str "text"
  else if containsSub (strToLower element) (str "button") then str "control"
  else if containsSub (strToLower element) (str "text") ||
          containsSub (strToLower element) (str "span") then str "text"
  else if containsSub (strToLower element) (str "div") ||
          containsSub (strToLower element) (str "container") then str "background"
  else str "text"

/-- SkinVarsAnalyzer.calculateColorConfidence (part_003 lines 180-199): base
0.7 for any exact match, +0.2 when the derived context equals the candidate
top-level category, +0.1 when the two argument colors coincide, capped by
`Math.min(confidence, 1.0)`.  The sequential `confidence += …` accumulation
is written as one sum. -/
def calculateColorConfidence (actualColor skinColor context category : Str) : ℚ :=
  min (((0.7 : ℚ) +
    (if context == category then (0.2 : ℚ) else 0)) +
    (if actualColor == skinColor then (0.1 : ℚ) else 0)) 1

/-- The static `SKIN_VARS_MAPPING.colors` table (part_003 lines 9-43), in
declaration order: top-level category, sub-role, literal color values. -/
def SKIN_VARS_MAPPING : List (Str × List (Str × List Str)) :=
  [ (str "text",
     [ (str "primary", [str "#000000", str "#1a1a1a", str "#333333", str "#0b2739", str "rgb(0,0,0)", str "black"]),
       (str "secondary", [str "#666666", str "#777777", str "#999999", str "#6b6c6f", str "rgb(102,102,102)"]),
       (str "tertiary", [str "#999999", str "#aaaaaa", str "#bbbbbb", str "rgb(153,153,153)"]),
       (str "inverse", [str "#ffffff", str "#fff", str "white", str "rgb(255,255,255)"]),
       (str "brand", [str "#0066cc", str "#007acc", str "#0080ff", str "rgb(0,102,204)"]),
       (str "success", [str "#00aa44", str "#00cc55", str "#22cc66", str "rgb(0,170,68)"]),
       (str "warning", [str "#ff9900", str "#ffaa00", str "#ffbb33", str "rgb(255,153,0)"]),
       (str "error", [str "#cc0000", str "#dd1122", str "#ff3344", str "rgb(204,0,0)"]) ]),
    (str "background",
     [ (str "canvas", [str "#ffffff", str "#fff", str "white", str "rgb(255,255,255)"]),
       (str "canvasAlternative", [str "#f5f5f5", str "#f0f0f0", str "#eeeeee", str "rgb(245,245,245)"]),
       (str "container", [str "#ffffff", str "#fff", str "white", str "rgb(255,255,255)"]),
       (str "containerAlternative", [str "#fafafa", str "#f8f8f8", str "rgb(250,250,250)"]),
       (str "brand", [str "#0066cc", str "#007acc", str "rgb(0,102,204)"]),
       (str "brandSecondary", [str "#e6f2ff", str "#f0f8ff", str "rgb(230,242,255)"]) ]),
    (str "border",
     [ (str "primary", [str "#dddddd", str "#d0d0d0", str "#cccccc", str "rgb(221,221,221)"]),
       (str "secondary", [str "#eeeeee", str "#e8e8e8", str "rgb(238,238,238)"]),
       (str "brand", [str "#0066cc", str "#007acc", str "rgb(0,102,204)"]),
       (str "selected", [str "#0066cc", str "#007acc", str "rgb(0,102,204)"]) ]),
    (str "control",
     [ (str "activatedBackground", [str "#0066cc", str "#007acc", str "rgb(0,102,204)"]),
       (str "deactivatedBackground", [str "#f5f5f5", str "#f0f0f0", str "rgb(245,245,245)"]),
       (str "activatedText", [str "#ffffff", str "#fff", str "white", str "rgb(255,255,255)"]),
       (str "deactivatedText", [str "#999999", str "#aaaaaa", str "rgb(153,153,153)"]) ]) ]

/-- The table flattened to (category, subcategory, literal) triples, in the
nested `Object.entries(...).forEach` iteration order of
`findBestSkinVarMatch`. -/
def skinVarsEntries : List (Str × Str × Str) :=
  SKIN_VARS_MAPPING.flatMap (fun cs =>
    cs.2.flatMap (fun sub => sub.2.map (fun v => (cs.1, sub.1, v))))

/-- The non-null result record of `findBestSkinVarMatch`. -/
structure SkinMatch where
  varName : Str
  category : Str
  confidence : ℚ
deriving DecidableEq, Repr

/-- One iteration of the nested loops of `findBestSkinVarMatch` (part_003
lines 110-133): on an exact normalized match whose confidence strictly
exceeds the best so far, replace the best match. -/
def considerEntry (normalizedColor context : Str)
    (acc : Option SkinMatch × ℚ) (e : Str × Str × Str) : Option SkinMatch × ℚ :=
  if colorsMatch normalizedColor (normalizeColor e.2.2) then
    if calculateColorConfidence normalizedColor (normalizeColor e.2.2) context e.1 > acc.2 then
      (some ⟨str "skinVars.colors." ++ e.2.1, e.1,
        calculateColorConfidence normalizedColor (normalizeColor e.2.2) context e.1⟩,
       calculateColorConfidence normalizedColor (normalizeColor e.2.2) context e.1)
    else acc
  else acc

/-- SkinVarsAnalyzer.findBestSkinVarMatch (part_003 lines 97-136). -/
def findBestSkinVarMatch (color property element : Str) : Option SkinMatch :=
  let normalizedColor := normalizeColor color
  let context := determineColorContext property element
  (skinVarsEntries.foldl (considerEntry normalizedColor context) (none, 0)).1


/- ===============================================================
   ElementExtractor.consolidatePresets (src/unnamed/part_001)
   =============================================================== -/

/-- A detected Figma text preset (part_001 `FigmaTextPreset`). -/
structure FigmaTextPreset where
  preset : Str
  variant : Str
  originalName : Str
  fontSizeGuess : Option ℚ
  confidenceScore : ℚ
deriving DecidableEq, Repr

/-- The grouping key of `consolidatePresets`:
the template literal `preset + "-" + variant`. -/
def presetKey (p : FigmaTextPreset) : Str := p.preset ++ str "-" ++ p.variant

/-- JS `Map.get` on the insertion-ordered association-list model of `Map`. -/
def mapLookup (m : List (Str × FigmaTextPreset)) (k : Str) : Option FigmaTextPreset :=
  (m.find? (fun e => e.1 == k)).map (fun e => e.2)

/-- JS `Map.set`: replace in place when the key exists (the entry keeps its
original position), append otherwise. -/
def mapSet (m : List (Str × FigmaTextPreset)) (k : Str) (v : FigmaTextPreset) :
    List (Str × FigmaTextPreset) :=
  if m.any (fun e => e.1 == k) then m.map (fun e => if e.1 == k then (k, v) else e)
  else m ++ [(k, v)]

/-- One iteration of the `presets.forEach` loop of `consolidatePresets`
(part_001 lines 459-467): keep the stored entry unless the new preset has
strictly greater confidence. -/
def consolidStep (m : List (Str × FigmaTextPreset)) (p : FigmaTextPreset) :
    List (Str × FigmaTextPreset) :=
  match mapLookup m (presetKey p) with
  | none => mapSet m (presetKey p) p
  | some existing =>
    if p.confidenceScore > existing.confidenceScore then mapSet m (presetKey p) p else m

/-- The populated `uniqueMap` of `consolidatePresets`. -/
def consolidMap (presets : List FigmaTextPreset) : List (Str × FigmaTextPreset) :=
  presets.foldl consolidStep []

/-- ElementExtractor.consolidatePresets (part_001 lines 455-472): deduplicate
by (preset, variant) key keeping the strictly-highest-confidence entry, then
sort the map values descending by confidence. -/
def consolidatePresets (presets : List FigmaTextPreset) : List FigmaTextPreset :=
  sortDescBy (fun p => p.confidenceScore) ((consolidMap presets).map (fun e => e.2))

/-- The per-key abstraction of `consolidStep`: what the stored entry for key
`k` becomes after one loop iteration. -/
def keptStep (k : Str) (acc : Option FigmaTextPreset) (q : FigmaTextPreset) :
    Option FigmaTextPreset :=
  if presetKey q == k then
    match acc with
    | none => some q
    | some b => if q.confidenceScore > b.confidenceScore then some q else acc
  else acc


/- ===============================================================
   ElementExtractor (src/unnamed/part_001): regex-probe machinery
   =============================================================== -/

/-- Case-insensitive alternation probe: `/p1|p2|.../gi.test(code)` with the
alternatives given lowercased. -/
def anyContains (code : Str) (pats : List Str) : Bool :=
  pats.any (fun p => containsSub (strToLower code) p)

/-- All suffixes of `l` that start right after an occurrence of some
alternative of the group `g` (the regex backtracking tries every occurrence
of every alternative, so a later part may continue after any of them). -/
def groupSuffixes : Str → List Str → List Str
  | [], g => if g.any (fun p => p.isEmpty) then [[]] else []
  | l@(_ :: t), g =>
    (g.filter (fun p => p.isPrefixOf l)).map (fun p => l.drop p.length) ++ groupSuffixes t g

/-- Acceptance test of a regex of the form `G1[\s\S]*?G2[\s\S]*?...` where
each `Gi` is an alternation group of plain strings: some occurrence of each
group in order.  Also used per line for `.`-separated sequences, since `.`
does not cross newlines. -/
def seqGroups (l : Str) : List (List Str) → Bool
  | [] => true
  | g :: rest => (groupSuffixes l g).any (fun suf => seqGroups suf rest)

/-- Split on newline characters. -/
def splitOnNewlines : Str → List Str
  | [] => [[]]
  | c :: t =>
    if c == '\n' then [] :: splitOnNewlines t
    else match splitOnNewlines t with
      | [] => [[c]]
      | h :: r => (c :: h) :: r

/-- Acceptance test of `/a1.*b1...|a2.*b2...|.../gi`: some alternative's parts
occur in order within a single line (the dot does not match newlines).
Alternatives and parts are given lowercased. -/
def anyLineSeq (code : Str) (alts : List (List Str)) : Bool :=
  (splitOnNewlines (strToLower code)).any (fun line =>
    alts.any (fun parts => seqGroups line (parts.map (fun p => [p]))))

/-- Acceptance test of a cross-line lazy sequence
`/(?:...)[\s\S]*?(?:...)/gi` over lowercased alternation groups. -/
def anySeqAnywhere (code : Str) (groups : List (List Str)) : Bool :=
  seqGroups (strToLower code) groups

/-- Regex word character `\w`. -/
def isWordChar (c : Char) : Bool := c.isAlphanum || c == '_'

/-- Existence of an occurrence of `p` (lowercased) whose following suffix
satisfies `f`. -/
def existsOccWith : Str → Str → (Str → Bool) → Bool
  | [], p, f => p.isEmpty && f []
  | l@(_ :: t), p, f => (p.isPrefixOf l && f (l.drop p.length)) || existsOccWith t p f

/-- Acceptance test of `/Button\w*\s*{/gi`: an occurrence of "button"
followed by word characters, then whitespace, then an opening brace (the
greedy quantifiers are equivalent to maximal munch here because the three
character classes are disjoint). -/
def buttonBraceProbe (code : Str) : Bool :=
  existsOccWith (strToLower code) (str "button") (fun suf =>
    ((suf.dropWhile isWordChar).dropWhile isSpaceChar).head? == some '\x7b')

/-- Non-overlapping left-to-right token count:
`(code.match(/p1|p2|.../gi) || []).length`, with alternatives lowercased and
tried in order at each position.  The fuel argument (the input length) only
bounds the recursion. -/
def countTokensAux : ℕ → Str → List Str → ℕ
  | 0, _, _ => 0
  | fuel + 1, l, pats =>
    match l with
    | [] => 0
    | _ :: t =>
      match pats.find? (fun p => p.isPrefixOf l) with
      | some p => 1 + countTokensAux fuel (l.drop (max p.length 1)) pats
      | none => countTokensAux fuel t pats

/-- JS `(code.match(/.../gi) || []).length` for an alternation of plain
strings. -/
def countTokens (code : Str) (pats : List Str) : ℕ :=
  countTokensAux code.length (strToLower code) pats

/- ===============================================================
   ElementExtractor: signal record types (part_001 lines 1-140)
   =============================================================== -/

/-- part_001 `ButtonElements`. -/
structure ButtonElements where
  found : Bool
  count : ℕ
  hasActions : Bool
  variants : List Str
  positions : List Str
deriving DecidableEq, Repr

/-- part_001 `TextElements`. -/
structure TextElements where
  found : Bool
  count : ℕ
  hasFormatting : Bool
  hierarchy : List Str
  figmaPresets : List FigmaTextPreset
deriving DecidableEq, Repr

/-- part_001 `ContainerElements`. -/
structure ContainerElements where
  found : Bool
  count : ℕ
  hasLayout : Bool
  hasPadding : Bool
  types : List Str
deriving DecidableEq, Repr

/-- part_001 `analyzeListStructure` result (the `structure` field of
`ListElements`; the source types it `any`). -/
structure ListStructure where
  hasIcons : Bool
  hasActions : Bool
  hasSubtitle : Bool
  isNested : Bool
deriving DecidableEq, Repr

/-- part_001 `ListElements`; the source field `structure` is a Lean keyword
and is modelled as `struct`. -/
structure ListElements where
  found : Bool
  count : ℕ
  isRepeated : Bool
  hasNavigation : Bool
  struct : ListStructure
deriving DecidableEq, Repr

/-- part_001 `IconElements`. -/
structure IconElements where
  found : Bool
  count : ℕ
  hasInteraction : Bool
  types : List Str
deriving DecidableEq, Repr

/-- part_001 `InputElements`. -/
structure InputElements where
  found : Bool
  count : ℕ
  types : List Str
  hasValidation : Bool
deriving DecidableEq, Repr

/-- part_001 `ImageElements`. -/
structure ImageElements where
  found : Bool
  count : ℕ
  isDecorative : Bool
deriving DecidableEq, Repr

/-- part_001 `NavigationElements`. -/
structure NavigationElements where
  found : Bool
  hasBackButton : Bool
  hasTitle : Bool
  hasActions : Bool
deriving DecidableEq, Repr

/-- part_001 `LayoutElements`. -/
structure LayoutElements where
  found : Bool
  hasFixedFooter : Bool
  hasFixedHeader : Bool
  hasModal : Bool
  layoutType : Str
  containsButtonInFooter : Bool
deriving DecidableEq, Repr

/-- part_001 `SecurityElements`. -/
structure SecurityElements where
  found : Bool
  hasPinField : Bool
  hasCodeInput : Bool
  hasOTPInput : Bool
  securityLevel : Str
deriving DecidableEq, Repr

/-- part_001 `SpacingElements`. -/
structure SpacingElements where
  found : Bool
  hasExplicitSpacing : Bool
  spacingTypes : List Str
  spacingValues : List Str
  spacingPatterns : List Str
  detectedUnits : List Str
  semanticSpacing : List Str
deriving DecidableEq, Repr

/-- part_001 `FormElements`; the source field `structure` is a Lean keyword
and is modelled as `struct`. -/
structure FormElements where
  found : Bool
  hasValidation : Bool
  fieldTypes : List Str
  hasSubmitButton : Bool
  struct : Str
deriving DecidableEq, Repr

/-- part_001 `FeedbackElements`; the source field `type` is a Lean keyword
and is modelled as `type_`. -/
structure FeedbackElements where
  found : Bool
  type_ : Str
  hasScreen : Bool
  hasIcon : Bool
  hasActions : Bool
  detectedNames : List Str
deriving DecidableEq, Repr

/-- part_001 `DetectedFigmaComponent`. -/
structure DetectedFigmaComponent where
  originalName : Str
  normalizedName : Str
  componentType : Str
  confidenceScore : ℚ
  variations : List Str
deriving DecidableEq, Repr

/-- part_001 `FigmaComponentElements`. -/
structure FigmaComponentElements where
  found : Bool
  detectedComponents : List DetectedFigmaComponent
deriving DecidableEq, Repr

/-- part_001 `UIElements`: the fourteen family signals. -/
structure UIElements where
  buttons : ButtonElements
  texts : TextElements
  containers : ContainerElements
  lists : ListElements
  icons : IconElements
  inputs : InputElements
  images : ImageElements
  navigation : NavigationElements
  layouts : LayoutElements
  security : SecurityElements
  forms : FormElements
  spacing : SpacingElements
  feedback : FeedbackElements
  figmaComponents : FigmaComponentElements
deriving DecidableEq, Repr

/- ===============================================================
   ElementExtractor: the extractors the found=false claim names
   =============================================================== -/

/-- ElementExtractor.detectButtonVariants (part_001 lines 253-261). -/
def detectButtonVariants (code : Str) : List Str :=
  (if anyContains code [str "primary"] then [str "primary"] else []) ++
  (if anyContains code [str "secondary"] then [str "secondary"] else []) ++
  (if anyContains code [str "danger", str "error"] then [str "danger"] else []) ++
  (if anyContains code [str "link"] then [str "link"] else []) ++
  (if anyLineSeq code [[str "icon", str "button"]] || anyContains code [str "iconbutton"]
   then [str "icon"] else [])

/-- ElementExtractor.detectButtonPositions (part_001 lines 535-559): footer
and header probes push their position; "inline" is pushed when no position
was found or when an inline probe matches. -/
def detectButtonPositions (code : Str) : List Str :=
  let positions :=
    (if anyLineSeq code [[str "footer", str "button"], [str "button", str "footer"],
        [str "bottom", str "button"], [str "fixed", str "bottom", str "button"]]
     then [str "footer"] else []) ++
    (if anyLineSeq code [[str "header", str "button"], [str "button", str "header"],
        [str "top", str "button"], [str "navigation", str "button"]]
     then [str "header"] else [])
  if positions.isEmpty ||
     anyLineSeq code [[str "inline", str "button"], [str "content", str "button"]] then
    positions ++ [str "inline"]
  else positions

/-- ElementExtractor.extractButtons (part_001 lines 162-177). -/
def extractButtons (code : Str) : ButtonElements :=
  { found :=
      anySeqAnywhere code
        [[str "button", str "btn", str "touchableopacity", str "pressable"],
         [str "onpress", str "onclick", str "press"]] ||
      anySeqAnywhere code [[str "<button"], [str ">"]] ||
      buttonBraceProbe code
    count := countTokens code [str "button", str "touchableopacity", str "pressable"]
    hasActions := anyContains code [str "onpress", str "onclick", str "press", str "tap"]
    variants := detectButtonVariants code
    positions := detectButtonPositions code }

/-- ElementExtractor.extractForms (part_001 lines 615-644): field types are
collected from per-type probes; `structure` (modelled as `struct`) is
"complex" above three types, "multi-field" above one, else "simple". -/
def extractForms (code : Str) : FormElements :=
  let hasValidation := anyContains code
    [str "validation", str "error", str "validate", str "required", str "pattern"]
  let hasSubmitButton := anyContains code
    [str "submit", str "send", str "save", str "continue", str "next", str "confirm"]
  let fieldTypes :=
    (if anyLineSeq code [[str "text", str "input"]] || anyContains code [str "textfield"]
     then [str "text"] else []) ++
    (if anyLineSeq code [[str "email", str "input"], [str "email", str "field"]]
     then [str "email"] else []) ++
    (if anyLineSeq code [[str "password", str "input"], [str "password", str "field"]]
     then [str "password"] else []) ++
    (if anyLineSeq code [[str "number", str "input"], [str "numeric", str "field"]]
     then [str "number"] else []) ++
    (if anyLineSeq code [[str "phone", str "input"], [str "phone", str "field"]]
     then [str "phone"] else []) ++
    (if anyLineSeq code [[str "pin", str "input"], [str "pin", str "field"],
        [str "code", str "input"]]
     then [str "pin"] else [])
  { found := !fieldTypes.isEmpty || hasSubmitButton
    hasValidation := hasValidation
    fieldTypes := fieldTypes
    hasSubmitButton := hasSubmitButton
    struct :=
      if fieldTypes.length > 3 then str "complex"
      else if fieldTypes.length > 1 then str "multi-field"
      else str "simple" }

/-- Quote characters recognised by the attribute-capture regexes. -/
def isQuote (c : Char) : Bool := c == '"' || c == '\''

/-- Scanner for `/key=["']([^"']...["']/gi` captures: after a
case-insensitive occurrence of `key`, a quote, the run of non-quote
characters, and a closing quote; the capture keeps the original casing.
When `requireKeyword` is set the run must contain one of the component
keywords (the `className=`/`id=` patterns); the `data-name=` pattern instead
requires a non-empty run.  Fuel-driven left-to-right scan continuing after
each match, like a global regex. -/
def scanAttrAux (key : Str) (requireKeyword : Bool) : ℕ → Str → List Str
  | 0, _ => []
  | _ + 1, [] => []
  | fuel + 1, l@(_ :: t) =>
    if key.isPrefixOf (strToLower l) then
      match l.drop key.length with
      | q :: rest =>
        if isQuote q then
          let cap := rest.takeWhile (fun c => !(isQuote c))
          match rest.drop cap.length with
          | q2 :: rest3 =>
            if isQuote q2 &&
               (if requireKeyword then
                  anyContains cap [str "screen", str "feedback", str "button",
                    str "card", str "modal"]
                else !cap.isEmpty) then
              cap :: scanAttrAux key requireKeyword fuel rest3
            else scanAttrAux key requireKeyword fuel t
          | [] => scanAttrAux key requireKeyword fuel t
        else scanAttrAux key requireKeyword fuel t
      | [] => scanAttrAux key requireKeyword fuel t
    else scanAttrAux key requireKeyword fuel t

/-- Scanner for the Figma comment pattern
`/\/\*\s*([^*]*(?:Screen|...)[^*]*)\s*\*\//gi`: after `/\*`, the run of
non-star characters must be followed by `*\/` and contain a component
keyword; the capture is the run (trimmed later by the caller). -/
def scanCommentsAux : ℕ → Str → List Str
  | 0, _ => []
  | _ + 1, [] => []
  | fuel + 1, l@(_ :: t) =>
    if (str "/*").isPrefixOf l then
      let cap := (l.drop 2).takeWhile (fun c => !(c == '*'))
      match (l.drop 2).drop cap.length with
      | '*' :: '/' :: rest3 =>
        if anyContains cap [str "screen", str "feedback", str "button",
            str "card", str "modal"] then
          cap :: scanCommentsAux fuel rest3
        else scanCommentsAux fuel t
      | _ => scanCommentsAux fuel t
    else scanCommentsAux fuel t

/-- Scanner approximating the word pattern
`/\b([A-Z][a-z]*(?:Screen|Feedback|Button|Card|Modal)[A-Z]?[a-z]*)\b/gi`:
with the `i` flag the character classes mean arbitrary letters, so this
collects maximal alphabetic words containing one of the keywords
case-insensitively (the word-boundary behaviour around digits and
underscores is simplified; none of the verified claims depends on it). -/
def scanWordsAux : ℕ → Str → List Str
  | 0, _ => []
  | _ + 1, [] => []
  | fuel + 1, l@(c :: t) =>
    if c.isAlpha then
      let w := l.takeWhile Char.isAlpha
      let rest := l.drop w.length
      if anyContains w [str "screen", str "feedback", str "button",
          str "card", str "modal"] then
        w :: scanWordsAux fuel rest
      else scanWordsAux fuel rest
    else scanWordsAux fuel t

/-- ElementExtractor.extractFigmaComponentNames (part_001 lines 821-850):
the five capture patterns applied in order, trimmed, filtered to length > 2,
then deduplicated keeping first occurrences. -/
def extractFigmaComponentNames (code : Str) : List Str :=
  let raw :=
    scanAttrAux (str "data-name=") false code.length code ++
    scanAttrAux (str "classname=") true code.length code ++
    scanAttrAux (str "id=") true code.length code ++
    scanCommentsAux code.length code ++
    scanWordsAux code.length code
  dedupKeepFirst ((raw.map jsTrim).filter (fun n => 2 < n.length))

/-- ElementExtractor.extractFeedback (part_001 lines 755-794). -/
def extractFeedback (code : Str) : FeedbackElements :=
  let feedbackNames := (extractFigmaComponentNames code).filter (fun n =>
    anyContains n [str "feedback", str "screen", str "error", str "success",
      str "info", str "warning"])
  let feedbackType :=
    if anyContains code [str "error"] then str "error"
    else if anyContains code [str "success"] then str "success"
    else if anyContains code [str "info"] then str "info"
    else if anyContains code [str "warning"] then str "warning"
    else str "generic"
  { found :=
      (anyLineSeq code [[str "error", str "feedback", str "screen"],
        [str "feedback", str "error", str "screen"], [str "error", str "screen"]] ||
       anyLineSeq code [[str "success", str "feedback", str "screen"],
        [str "feedback", str "success", str "screen"], [str "success", str "screen"]] ||
       anyLineSeq code [[str "info", str "feedback", str "screen"],
        [str "feedback", str "info", str "screen"], [str "info", str "screen"]] ||
       anyLineSeq code [[str "warning", str "feedback", str "screen"],
        [str "feedback", str "warning", str "screen"], [str "warning", str "screen"]] ||
       anyLineSeq code [[str "feedback", str "screen"], [str "screen", str "feedback"]]) ||
      !feedbackNames.isEmpty
    type_ := feedbackType
    hasScreen := anyContains code [str "screen"]
    hasIcon :=
      anyContains code [str "icon"] ||
      anyLineSeq code [[str "image", str "error"], [str "image", str "success"],
        [str "image", str "info"], [str "image", str "warning"]]
    hasActions := anyContains code [str "button", str "action", str "retry",
      str "close", str "dismiss", str "ok"]
    detectedNames := feedbackNames }


/- ===============================================================
   PatternDetector result types (src/src/analyzers/PatternDetector.ts)
   =============================================================== -/

/-- PatternDetector.ts `UIPatterns`. -/
structure UIPatterns where
  listPattern : Bool
  cardPattern : Bool
  formPattern : Bool
  navigationPattern : Bool
  modalPattern : Bool
  tablePattern : Bool
  headerPattern : Bool
  footerPattern : Bool
deriving DecidableEq, Repr

/-- PatternDetector.ts `StructuralAnalysis`. -/
structure StructuralAnalysis where
  hasNestedElements : Bool
  layoutType : Str
  repetitiveElements : Bool
  interactionElements : List Str
  spacing : Str
  alignment : Str
deriving DecidableEq, Repr

/- ===============================================================
   ComponentMapper (src/unnamed/part_005)
   =============================================================== -/

/-- part_005 `ComponentSuggestion`. -/
structure ComponentSuggestion where
  component : MisticaComponent
  reason : Str
  score : ℤ
deriving DecidableEq, Repr

/-- part_005 `ElementMapping`. -/
structure ElementMapping where
  detected : Bool
  misticaComponents : List Str
  reason : Str
  priority : ℤ
deriving DecidableEq, Repr

/-- ComponentMapper.getButtonComponents (part_005 lines 343-363). -/
def getButtonComponents (buttons : ButtonElements) : List Str :=
  let components :=
    (if buttons.hasActions then
      [str "ButtonPrimary", str "ButtonSecondary", str "Touchable"] else []) ++
    (if buttons.variants.contains (str "icon") then [str "IconButton"] else []) ++
    (if buttons.variants.contains (str "link") then [str "TextLink"] else []) ++
    (if buttons.variants.contains (str "danger") then [str "ButtonDanger"] else [])
  if components.length > 0 then components else [str "ButtonPrimary", str "Touchable"]

/-- ComponentMapper.getButtonReason (part_005 lines 365-370). -/
def getButtonReason (buttons : ButtonElements) : Str :=
  if buttons.hasActions then str "Para elementos interativos com ações (clique, toque)"
  else str "Para componentes de ação básicos"

/-- ComponentMapper.getTextComponents (part_005 lines 372-392). -/
def getTextComponents (texts : TextElements) : List Str :=
  let components :=
    (if texts.hierarchy.contains (str "h1") then [str "Title1"] else []) ++
    (if texts.hierarchy.contains (str "h2") then [str "Title2"] else []) ++
    (if texts.hierarchy.contains (str "h3") then [str "Title3"] else []) ++
    (if texts.hierarchy.contains (str "subtitle") then [str "Title2", str "Title3"] else []) ++
    (if texts.hierarchy.contains (str "body") then [str "Text"] else [])
  if components.length > 0 then components else [str "Text", str "Title1"]

/-- ComponentMapper.getTextReason (part_005 lines 394-399). -/
def getTextReason (texts : TextElements) : Str :=
  if texts.hasFormatting then str "Para textos com hierarquia e formatação específica"
  else str "Para conteúdo textual e títulos"

/-- ComponentMapper.getListComponents (part_005 lines 401-417). -/
def getListComponents (lists : ListElements) : List Str :=
  let components :=
    (if lists.hasNavigation && lists.struct.hasIcons then
      [str "BoxedRowList", str "BoxedRow"]
     else if lists.hasNavigation then [str "RowList", str "BoxedRow"]
     else if lists.isRepeated then [str "RowList", str "BoxedRowList"]
     else []) ++
    (if lists.struct.hasActions then [str "BoxedRow", str "Menu"] else [])
  if components.length > 0 then components else [str "RowList"]

/-- ComponentMapper.getListReason (part_005 lines 419-427). -/
def getListReason (lists : ListElements) : Str :=
  if lists.hasNavigation && lists.struct.hasIcons then
    str "Para listas interativas com ícones e navegação - IDEAL: BoxedRowList + BoxedRow"
  else if lists.isRepeated then str "Para listas de elementos repetitivos estruturados"
  else str "Para organização de conteúdo em lista"

/-- ComponentMapper.getContainerComponents (part_005 lines 429-475): layout
components first, an optional spacing block that prepends Stack and Box via
`unshift` and appends Inline and Grid, then the card components, finally
deduplicated by `[...new Set(...)]` or replaced by the default pair. -/
def getContainerComponents (containers : ContainerElements)
    (structure_ : StructuralAnalysis) (spacing : SpacingElements) : List Str :=
  let c1 :=
    (if structure_.layoutType == str "vertical" then [str "Stack"] else []) ++
    (if structure_.layoutType == str "horizontal" then [str "Inline"] else []) ++
    (if structure_.layoutType == str "grid" then [str "Grid", str "GridLayout"] else []) ++
    (if containers.hasPadding then [str "Box"] else [])
  let c2 :=
    if spacing.found then
      let a :=
        if spacing.spacingPatterns.contains (str "design-system-aligned") then
          let u1 := str "Stack" :: c1
          if spacing.spacingValues.any (fun v =>
              [str "8px", str "16px", str "24px", str "32px"].contains v) then
            str "Box" :: u1
          else u1
        else c1
      let b := if spacing.spacingTypes.contains (str "gap") then a ++ [str "Inline"] else a
      if spacing.spacingTypes.length > 2 then b ++ [str "Grid"] else b
    else c1
  let c3 := c2 ++
    (if containers.types.contains (str "card") then [str "DataCard", str "MediaCard"] else [])
  if c3.length > 0 then dedupKeepFirst c3 else [str "Box", str "Stack"]

/-- ComponentMapper.getContainerReason (part_005 lines 477-497). -/
def getContainerReason (containers : ContainerElements)
    (structure_ : StructuralAnalysis) (spacing : SpacingElements) : Str :=
  if spacing.found && spacing.spacingPatterns.contains (str "design-system-aligned") then
    str "Para layout com espaçamento alinhado ao design system Mística"
  else if spacing.found && spacing.spacingPatterns.contains (str "consistent") then
    str "Para layout com espaçamento consistente e controlado"
  else if spacing.found && spacing.spacingPatterns.contains (str "mixed") then
    str "Para normalizar espaçamento inconsistente usando padrões Mística"
  else if structure_.layoutType == str "vertical" then
    str "Para layout vertical com espaçamento controlado"
  else if structure_.layoutType == str "grid" then
    str "Para layouts em grade organizados"
  else str "Para organização e espaçamento de elementos"

/-- ComponentMapper.getIconComponents (part_005 lines 499-504). -/
def getIconComponents (icons : IconElements) : List Str :=
  if icons.hasInteraction then [str "IconButton"] else [str "Logo"]

/-- ComponentMapper.getIconReason (part_005 lines 506-511). -/
def getIconReason (icons : IconElements) : Str :=
  if icons.hasInteraction then str "Para ícones interativos com ações (botões de ícone)"
  else str "Para ícones decorativos e identidade visual"

/-- ComponentMapper.getInputComponents (part_005 lines 513-546). -/
def getInputComponents (inputs : InputElements) : List Str :=
  let components := inputs.types.flatMap (fun t =>
    if t == str "email" then [str "EmailField"]
    else if t == str "password" then [str "PasswordField"]
    else if t == str "number" then [str "IntegerField", str "DecimalField"]
    else if t == str "search" then [str "SearchField"]
    else if t == str "date" then [str "DateField", str "DateTimeField"]
    else if t == str "textarea" then [str "TextField"]
    else [str "TextField"])
  let c2 := components ++ (if inputs.hasValidation then [str "Form"] else [])
  if c2.length > 0 then c2 else [str "TextField"]

/-- ComponentMapper.getInputReason (part_005 lines 548-553). -/
def getInputReason (inputs : InputElements) : Str :=
  if inputs.hasValidation then
    str "Para campos de entrada com validação e formulários estruturados"
  else str "Para entrada de dados do usuário"

/-- ComponentMapper.getNavigationComponents (part_005 lines 555-567). -/
def getNavigationComponents (navigation : NavigationElements) : List Str :=
  [str "NavigationBar"] ++
  (if navigation.hasTitle && !navigation.hasBackButton then [str "Header"] else []) ++
  (if navigation.hasActions then [str "Header"] else [])

/-- ComponentMapper.getNavigationReason (part_005 lines 569-577). -/
def getNavigationReason (navigation : NavigationElements) : Str :=
  if navigation.hasBackButton then str "Para navegação com botão de voltar e título"
  else if navigation.hasActions then str "Para cabeçalho com ações e navegação"
  else str "Para estrutura de navegação básica"

/-- ComponentMapper.createElementMappings (part_005 lines 120-182), viewed
through `Object.entries`: the (family key, mapping) pairs in field
declaration order, as iterated by `findMisticaEquivalents`. -/
def createElementMappings (elements : UIElements) (structure_ : StructuralAnalysis)
    (patterns : UIPatterns) : List (Str × ElementMapping) :=
  [ (str "buttons",
     { detected := elements.buttons.found
       misticaComponents := getButtonComponents elements.buttons
       reason := getButtonReason elements.buttons
       priority := if elements.buttons.hasActions then 90 else 70 }),
    (str "texts",
     { detected := elements.texts.found
       misticaComponents := getTextComponents elements.texts
       reason := getTextReason elements.texts
       priority := 60 }),
    (str "lists",
     { detected := elements.lists.found
       misticaComponents := getListComponents elements.lists
       reason := getListReason elements.lists
       priority := if elements.lists.hasNavigation then 95 else 80 }),
    (str "containers",
     { detected := elements.containers.found
       misticaComponents := getContainerComponents elements.containers structure_ elements.spacing
       reason := getContainerReason elements.containers structure_ elements.spacing
       priority := 50 }),
    (str "icons",
     { detected := elements.icons.found
       misticaComponents := getIconComponents elements.icons
       reason := getIconReason elements.icons
       priority := if elements.icons.hasInteraction then 75 else 40 }),
    (str "inputs",
     { detected := elements.inputs.found
       misticaComponents := getInputComponents elements.inputs
       reason := getInputReason elements.inputs
       priority := if elements.inputs.hasValidation then 85 else 70 }),
    (str "navigation",
     { detected := elements.navigation.found
       misticaComponents := getNavigationComponents elements.navigation
       reason := getNavigationReason elements.navigation
       priority := 90 }) ]

/-- ComponentMapper.inferComplexity (part_005 lines 597-605):
`Object.values(analysis.elements)` summed over `element.count || 0` — the
seven families carrying a `count` field contribute it, the rest contribute
0. -/
def inferComplexity (elements : UIElements) : Str :=
  let elementCounts := elements.buttons.count + elements.texts.count +
    elements.containers.count + elements.lists.count + elements.icons.count +
    elements.inputs.count + elements.images.count
  if elementCounts > 15 then str "high"
  else if elementCounts > 8 then str "medium"
  else str "low"

/-- The `categoryBoosts` record lookup of `calculateIntelligentScore`
(part_005 lines 200-207): `categoryBoosts[component.category] || 0`. -/
def categoryBoost (category : Str) : ℤ :=
  if category == str "components" then 25
  else if category == str "layout" then 20
  else if category == str "icons" then 15
  else if category == str "utilities" then 10
  else if category == str "hooks" then 5
  else 0

/-- ComponentMapper.calculateIntelligentScore (part_005 lines 187-255).  The
`analysis` argument of the source carries `{elements, structure, patterns}`;
only `analysis.elements` is read.  The `complexityBoosts[complexity]` lookup
is translated literally: the record is indexed by the inferred complexity
itself, so the mismatch branches (−10, 0, 5) are unreachable. -/
def calculateIntelligentScore (elementType : Str) (component : MisticaComponent)
    (elements : UIElements) (mapping : ElementMapping) : ℤ :=
  let componentName := strToLower component.name
  let s1 := mapping.priority +
    (if containsSub componentName elementType then 30 else 0)
  let s2 := s1 + categoryBoost component.category
  let s3 :=
    if elements.spacing.found then
      let a :=
        if elements.spacing.spacingPatterns.contains (str "design-system-aligned") &&
           (component.category == str "layout" ||
            containsSub componentName (str "stack") ||
            containsSub componentName (str "box")) then s2 + 25
        else s2
      let b :=
        if elements.spacing.spacingPatterns.contains (str "consistent") then a + 15 else a
      let c :=
        if [str "stack", str "box", str "container", str "grid", str "flex"].any
            (fun t => containsSub componentName t) then b + 20
        else b
      if elements.spacing.spacingPatterns.contains (str "mixed") &&
         (elementType == str "layout" || elementType == str "containers") then c - 10
      else c
    else s2
  let complexity := inferComplexity elements
  let s4 := s3 +
    (if complexity == str "high" then (if complexity == str "high" then (20 : ℤ) else -10)
     else if complexity == str "medium" then (if complexity == str "medium" then 15 else 0)
     else if complexity == str "low" then (if complexity == str "low" then 10 else 5)
     else 0)
  let s5 := s4 -
    (if elementType == str "lists" && !containsSub componentName (str "list") &&
        !containsSub componentName (str "row") then (20 : ℤ) else 0)
  let s6 := s5 -
    (if elementType == str "buttons" && !containsSub componentName (str "button") &&
        !containsSub componentName (str "touchable") then (15 : ℤ) else 0)
  max s6 0

/-- ComponentMapper.findComponentsByPattern (part_005 lines 584-595). -/
def findComponentsByPattern (components : List MisticaComponent)
    (patterns : List Str) : List MisticaComponent :=
  components.filter (fun comp =>
    patterns.any (fun pattern =>
      containsSub (strToLower comp.name) (strToLower pattern) ||
      containsSub (strToLower comp.description) (strToLower pattern)))

/-- One fixed-name fallback block of `getPatternBasedSuggestions`: resolve
each canonical name by exact, case-sensitive name equality. -/
def patternBlock (allComponents : List MisticaComponent) (names : List Str)
    (reason : Str) (score : ℤ) : List ComponentSuggestion :=
  names.filterMap (fun name =>
    (allComponents.find? (fun c => c.name == name)).map
      (fun component => ⟨component, reason, score⟩))

/-- ComponentMapper.getPatternBasedSuggestions (part_005 lines 260-339). -/
def getPatternBasedSuggestions (patterns : UIPatterns)
    (allComponents : List MisticaComponent) : List ComponentSuggestion :=
  (if patterns.listPattern then
    patternBlock allComponents [str "BoxedRowList", str "RowList", str "BoxedRow"]
      (str "Detectado padrão de lista com elementos repetitivos") 85
   else []) ++
  (if patterns.cardPattern then
    patternBlock allComponents
      [str "DataCard", str "MediaCard", str "HighlightedCard", str "BoxedRow"]
      (str "Detectado padrão de card com container estruturado") 80
   else []) ++
  (if patterns.formPattern then
    patternBlock allComponents
      [str "Form", str "TextField", str "EmailField", str "PasswordField"]
      (str "Detectado padrão de formulário com múltiplos inputs") 85
   else []) ++
  (if patterns.navigationPattern then
    patternBlock allComponents
      [str "NavigationBar", str "Header", str "NavigationBreadcrumbs"]
      (str "Detectado padrão de navegação com cabeçalho") 90
   else []) ++
  (if patterns.modalPattern then
    patternBlock allComponents [str "ActionsSheet", str "Drawer", str "InfoSheet"]
      (str "Detectado padrão de modal ou overlay") 85
   else [])

/-- The `suggestions` array of `findMisticaEquivalents` as collected before
deduplication (part_005 lines 45-104): the two high-confidence special cases,
then the element mappings in `Object.entries` order, then the pattern-based
fallbacks. -/
def collectSuggestions (elements : UIElements) (structure_ : StructuralAnalysis)
    (patterns : UIPatterns) (allComponents : List MisticaComponent) :
    List ComponentSuggestion :=
  (if elements.layouts.hasFixedFooter && elements.layouts.containsButtonInFooter then
    (findComponentsByPattern allComponents
      [str "layout", str "footer", str "fixed", str "button"]).map
      (fun comp => ⟨comp,
        str "Componente para layout com botão fixo no footer (Button Fixed Footer Layout)",
        95⟩)
   else []) ++
  (if elements.security.hasPinField || elements.security.hasCodeInput then
    (findComponentsByPattern allComponents
      [str "pin", str "code", str "security", str "otp", str "verification"]).map
      (fun comp => ⟨comp, str "Componente para entrada de código PIN/segurança", 90⟩)
   else []) ++
  ((createElementMappings elements structure_ patterns).flatMap (fun em =>
    if em.2.detected then
      em.2.misticaComponents.filterMap (fun componentName =>
        (allComponents.find? (fun c => strToLower c.name == strToLower componentName)).map
          (fun component =>
            ⟨component, em.2.reason,
              calculateIntelligentScore em.1 component elements em.2⟩))
    else [])) ++
  getPatternBasedSuggestions patterns allComponents

/-- Helper of `dedupByName`: `seen` collects the component names already
kept. -/
def dedupByNameAux (seen : List Str) : List ComponentSuggestion → List ComponentSuggestion
  | [] => []
  | s :: t =>
    if seen.contains s.component.name then dedupByNameAux seen t
    else s :: dedupByNameAux (s.component.name :: seen) t

/-- The `filter((s, i, self) => i === self.findIndex(...))` deduplication of
`findMisticaEquivalents` (part_005 lines 107-110): keep each suggestion only
when it is the first with its component name. -/
def dedupByName (l : List ComponentSuggestion) : List ComponentSuggestion :=
  dedupByNameAux [] l

/-- ComponentMapper.findMisticaEquivalents (part_005 lines 39-115): collect,
deduplicate by name (first occurrence wins), sort descending by score, take
the first 10.  The source function is `async` but performs no awaiting; the
returned promise value is modelled directly. -/
def findMisticaEquivalents (elements : UIElements) (structure_ : StructuralAnalysis)
    (patterns : UIPatterns) (allComponents : List MisticaComponent) :
    List ComponentSuggestion :=
  (sortDescBy (fun s => s.score)
    (dedupByName (collectSuggestions elements structure_ patterns allComponents))).take 10

/-- The conditions under which `findMisticaEquivalents` dereferences its
`allComponents` argument: the two special-case tiers call
`findComponentsByPattern` (a `.filter`), a detected element mapping calls
`allComponents.find`, and a true pattern flag makes
`getPatternBasedSuggestions` call `allComponents.find`. -/
def catalogAccessTriggered (elements : UIElements) (patterns : UIPatterns) : Bool :=
  (elements.layouts.hasFixedFooter && elements.layouts.containsButtonInFooter) ||
  (elements.security.hasPinField || elements.security.hasCodeInput) ||
  elements.buttons.found || elements.texts.found || elements.lists.found ||
  elements.containers.found || elements.icons.found || elements.inputs.found ||
  elements.navigation.found ||
  patterns.listPattern || patterns.cardPattern || patterns.formPattern ||
  patterns.navigationPattern || patterns.modalPattern

/-- Partial evaluation of `findMisticaEquivalents` at `allComponents = null`
(part_005 lines 39-115): the first catalog access in source order —
tier 1 `findComponentsByPattern` (`null.filter`), tier 2 `null.find` for the
first detected family, tier 3 `null.find` for the first true pattern flag —
throws a TypeError; when nothing is detected the suggestion list stays empty
and the call returns `[]` without touching the catalog. -/
def findMisticaEquivalentsNullCatalog (elements : UIElements)
    (structure_ : StructuralAnalysis) (patterns : UIPatterns) :
    Except Str (List ComponentSuggestion) :=
  if elements.layouts.hasFixedFooter && elements.layouts.containsButtonInFooter then
    .error (str "TypeError: Cannot read properties of null")
  else if elements.security.hasPinField || elements.security.hasCodeInput then
    .error (str "TypeError: Cannot read properties of null")
  else if elements.buttons.found || elements.texts.found || elements.lists.found ||
      elements.containers.found || elements.icons.found || elements.inputs.found ||
      elements.navigation.found then
    .error (str "TypeError: Cannot read properties of null")
  else if patterns.listPattern || patterns.cardPattern || patterns.formPattern ||
      patterns.navigationPattern || patterns.modalPattern then
    .error (str "TypeError: Cannot read properties of null")
  else .ok []

/-- Modelled from the spec (§4.6 / C3): the claimed canonical order of
operations — collect all suggestions, sort descending by score, then dedup
by name, then truncate to 10 — for comparison against the source order. -/
def canonicalOrderSuggestions (elements : UIElements) (structure_ : StructuralAnalysis)
    (patterns : UIPatterns) (allComponents : List MisticaComponent) :
    List ComponentSuggestion :=
  (dedupByName (sortDescBy (fun s => s.score)
    (collectSuggestions elements structure_ patterns allComponents))).take 10

/- Concrete analysis inputs used by the mapper counterexamples and
witnesses. -/

/-- An all-false / all-empty analysis: no family detected. -/
def emptyElements : UIElements :=
  { buttons := ⟨false, 0, false, [], []⟩
    texts := ⟨false, 0, false, [], []⟩
    containers := ⟨false, 0, false, false, []⟩
    lists := ⟨false, 0, false, false, ⟨false, false, false, false⟩⟩
    icons := ⟨false, 0, false, []⟩
    inputs := ⟨false, 0, [], false⟩
    images := ⟨false, 0, false⟩
    navigation := ⟨false, false, false, false⟩
    layouts := ⟨false, false, false, false, str "standard", false⟩
    security := ⟨false, false, false, false, str "none"⟩
    forms := ⟨false, false, [], false, str "simple"⟩
    spacing := ⟨false, false, [], [], [], [], []⟩
    feedback := ⟨false, str "generic", false, false, false, []⟩
    figmaComponents := ⟨false, []⟩ }

/-- A neutral structural analysis. -/
def defaultStructure : StructuralAnalysis :=
  ⟨false, str "standard", false, [], str "", str ""⟩

/-- No visual pattern detected. -/
def emptyPatterns : UIPatterns :=
  ⟨false, false, false, false, false, false, false, false⟩

/-- Analysis input of the C3 counterexample: only the containers family is
detected, with a card container type. -/
def cardContainersElements : UIElements :=
  { emptyElements with containers := ⟨true, 0, false, false, [str "card"]⟩ }

/-- Pattern input of the C3 counterexample: only the card pattern. -/
def cardOnlyPatterns : UIPatterns :=
  { emptyPatterns with cardPattern := true }

/-- One-component catalog of the C3 counterexample. -/
def dataCardComponent : MisticaComponent :=
  ⟨str "DataCard", str "feedback", str ""⟩

/- ===============================================================
   THEOREMS
   =============================================================== -/

theorem insertDescBy_perm {α β : Type} [LinearOrder β] (key : α → β) (x : α)
    (l : List α) : List.Perm (insertDescBy key x l) (x :: l) := by
  induction l with
  | nil => simp [insertDescBy]
  | cons y t ih =>
    simp only [insertDescBy]
    split
    · exact List.Perm.refl _
    · exact (ih.cons y).trans (List.Perm.swap x y t)

theorem sortDescBy_perm {α β : Type} [LinearOrder β] (key : α → β)
    (l : List α) : List.Perm (sortDescBy key l) l := by
  induction l with
  | nil => simp [sortDescBy]
  | cons x t ih => exact (insertDescBy_perm key x (sortDescBy key t)).trans (ih.cons x)

theorem sorted_insertDescBy {α β : Type} [LinearOrder β] (key : α → β) (x : α)
    (l : List α) (h : l.Sorted (fun a b => key b ≤ key a)) :
    (insertDescBy key x l).Sorted (fun a b => key b ≤ key a) := by
  induction l with
  | nil => simp [insertDescBy]
  | cons y t ih =>
    rw [List.sorted_cons] at h
    simp only [insertDescBy]
    split
    · rename_i hlt
      rw [List.sorted_cons]
      constructor
      · intro b hb
        rcases List.mem_cons.mp hb with hb | hb
        · exact le_of_lt (hb ▸ hlt)
        · exact le_trans (h.1 b hb) (le_of_lt hlt)
      · exact List.sorted_cons.mpr h
    · rename_i hnlt
      rw [List.sorted_cons]
      constructor
      · intro b hb
        have hmem := (insertDescBy_perm key x t).mem_iff.mp hb
        rcases List.mem_cons.mp hmem with hb2 | hb2
        · subst hb2
          exact le_of_not_lt hnlt
        · exact h.1 b hb2
      · exact ih h.2

theorem sorted_sortDescBy {α β : Type} [LinearOrder β] (key : α → β)
    (l : List α) : (sortDescBy key l).Sorted (fun a b => key b ≤ key a) := by
  induction l with
  | nil => simp [sortDescBy]
  | cons x t ih => exact sorted_insertDescBy key x _ ih


theorem containsSub_refl (l : Str) : containsSub l l = true := by
  cases l with
  | nil => rfl
  | cons c t => simp [containsSub, List.isPrefixOf_iff_prefix]

/-- C7 (amended): in `calculateRelevanceScore`, the per-term name bonus is not
exclusive on exact equality: when the name equals the term the code adds both
the +90 equality bonus and the +80 prefix bonus (equality implies prefix
containment), for a total of 170; otherwise exactly one of +80 / +70 / +60
fires when the name contains the term, with prefix checked before suffix
before generic containment, and 0 when it does not. -/
theorem C7_name_bonus_not_exclusive (name term : Str) :
    nameTermScore name term =
      if name = term then 170
      else if containsSub name term then
        (if term.isPrefixOf name then 80
         else if endsWithSub name term then 70 else 60)
      else 0 := by
  by_cases h : name = term
  · subst h
    simp [nameTermScore, containsSub_refl, List.isPrefixOf_iff_prefix]
  · simp only [nameTermScore, if_neg h, beq_eq_false_iff_ne.mpr h, if_false]
    ring_nf
    simp

/-- C7 counterexample: the claim says exactly one name-match bonus fires per
term, +90 on equality; but on `name = term = "button"` the accumulated
name bonus is 170 (both the +90 equality and +80 prefix branches fire),
not 90. -/
theorem C7_counterexample :
    nameTermScore (str "button") (str "button") = 170 ∧
    nameTermScore (str "button") (str "button") ≠ 90 := by decide

/-- C1 (amended): a catalog component whose lowercased name equals the
lowercased, trimmed query is scored exactly 100 by `calculateRelevanceScore`
(the short-circuit branch) and is always part of the list returned by
`smartSearchComponents`; it does NOT always rank first, because other
components can accumulate more than 100 (see the counterexample). -/
theorem C1_exact_match_scores_100 (components : List MisticaComponent)
    (query : Str) (comp : MisticaComponent) (hmem : comp ∈ components)
    (hq : jsTrim query ≠ [])
    (hname : strToLower comp.name = jsTrim (strToLower query)) :
    calculateRelevanceScore comp (jsTrim (strToLower query))
      (extractSearchTerms (jsTrim (strToLower query)))
      (extractContextualKeywords (jsTrim (strToLower query))) = 100 ∧
    comp ∈ smartSearchComponents components query := by
  have hscore : ∀ sts ctks,
      calculateRelevanceScore comp (jsTrim (strToLower query)) sts ctks = 100 := by
    intro sts ctks
    unfold calculateRelevanceScore
    rw [hname]
    simp
  refine ⟨hscore _ _, ?_⟩
  have h1 : (query == ([] : Str)) = false := by
    rw [beq_eq_false_iff_ne]
    intro h
    subst h
    exact hq rfl
  have h2 : (jsTrim query == ([] : Str)) = false := by
    rw [beq_eq_false_iff_ne]
    exact hq
  unfold smartSearchComponents
  rw [h1, h2]
  simp only [Bool.or_self, Bool.false_or, if_false]
  apply List.mem_map.mpr
  refine ⟨(comp, 100), ?_, rfl⟩
  apply (sortDescBy_perm _ _).mem_iff.mpr
  apply List.mem_filter.mpr
  constructor
  · exact List.mem_map.mpr ⟨comp, hmem, by rw [hscore]⟩
  · norm_num

/-- C1 witness: the exact-match component scores 100 and is returned for the
query " BUTTON " against a one-element catalog. -/
theorem C1_witness :
    calculateRelevanceScore ⟨str "Button", str "", str ""⟩
      (jsTrim (strToLower (str " BUTTON ")))
      (extractSearchTerms (jsTrim (strToLower (str " BUTTON "))))
      (extractContextualKeywords (jsTrim (strToLower (str " BUTTON ")))) = 100 ∧
    (⟨str "Button", str "", str ""⟩ : MisticaComponent) ∈
      smartSearchComponents [⟨str "Button", str "", str ""⟩] (str " BUTTON ") :=
  C1_exact_match_scores_100 [⟨str "Button", str "", str ""⟩] (str " BUTTON ") _
    (by decide) (by decide) (by decide)

/-- C1 counterexample: with catalog [Button, ButtonAction] and query "button",
the exact-match component "Button" (score 100) is ranked SECOND: the other
component accumulates 80 (prefix) + 50 (synonym "action" in name) + 40
(contextual keyword "action" in name) = 170 > 100, contradicting the claim
that nothing can exceed the exact match through accumulation. -/
theorem C1_counterexample :
    smartSearchComponents
      [⟨str "Button", str "", str ""⟩, ⟨str "ButtonAction", str "", str ""⟩]
      (str "button") =
      [⟨str "ButtonAction", str "", str ""⟩, ⟨str "Button", str "", str ""⟩] ∧
    strToLower (str "ButtonAction") ≠ jsTrim (strToLower (str "button")) := by decide

theorem findLevel_none_of_outside (s : ℚ) (h : outsideAllRanges s) :
    findLevel s TEXT_SCALE_MAPPING = none := by
  have h1 : ¬((scaleConfig TextLevel.text1).minSize ≤ s ∧ s ≤ (scaleConfig TextLevel.text1).maxSize) :=
    h (.text1, scaleConfig .text1) (by simp [TEXT_SCALE_MAPPING])
  have h2 : ¬((scaleConfig TextLevel.text2).minSize ≤ s ∧ s ≤ (scaleConfig TextLevel.text2).maxSize) :=
    h (.text2, scaleConfig .text2) (by simp [TEXT_SCALE_MAPPING])
  have h3 : ¬((scaleConfig TextLevel.text3).minSize ≤ s ∧ s ≤ (scaleConfig TextLevel.text3).maxSize) :=
    h (.text3, scaleConfig .text3) (by simp [TEXT_SCALE_MAPPING])
  have h4 : ¬((scaleConfig TextLevel.text4).minSize ≤ s ∧ s ≤ (scaleConfig TextLevel.text4).maxSize) :=
    h (.text4, scaleConfig .text4) (by simp [TEXT_SCALE_MAPPING])
  have h5 : ¬((scaleConfig TextLevel.text5).minSize ≤ s ∧ s ≤ (scaleConfig TextLevel.text5).maxSize) :=
    h (.text5, scaleConfig .text5) (by simp [TEXT_SCALE_MAPPING])
  have h6 : ¬((scaleConfig TextLevel.text6).minSize ≤ s ∧ s ≤ (scaleConfig TextLevel.text6).maxSize) :=
    h (.text6, scaleConfig .text6) (by simp [TEXT_SCALE_MAPPING])
  have h7 : ¬((scaleConfig TextLevel.text7).minSize ≤ s ∧ s ≤ (scaleConfig TextLevel.text7).maxSize) :=
    h (.text7, scaleConfig .text7) (by simp [TEXT_SCALE_MAPPING])
  have h8 : ¬((scaleConfig TextLevel.text8).minSize ≤ s ∧ s ≤ (scaleConfig TextLevel.text8).maxSize) :=
    h (.text8, scaleConfig .text8) (by simp [TEXT_SCALE_MAPPING])
  have h9 : ¬((scaleConfig TextLevel.text9).minSize ≤ s ∧ s ≤ (scaleConfig TextLevel.text9).maxSize) :=
    h (.text9, scaleConfig .text9) (by simp [TEXT_SCALE_MAPPING])
  have h10 : ¬((scaleConfig TextLevel.text10).minSize ≤ s ∧ s ≤ (scaleConfig TextLevel.text10).maxSize) :=
    h (.text10, scaleConfig .text10) (by simp [TEXT_SCALE_MAPPING])
  unfold TEXT_SCALE_MAPPING
  simp only [findLevel]
  rw [if_neg h1, if_neg h2, if_neg h3, if_neg h4, if_neg h5, if_neg h6,
    if_neg h7, if_neg h8, if_neg h9, if_neg h10]

theorem findLevel_strict_inside (s : ℚ) (lv : TextLevel)
    (hmin : (scaleConfig lv).minSize < s) (hmax : s < (scaleConfig lv).maxSize) :
    findLevel s TEXT_SCALE_MAPPING = some lv := by
  cases lv with
  | text1 =>
    have hmin2 : (56 : ℚ) < s := hmin
    have hmax2 : s < (64 : ℚ) := hmax
    have p1 : (scaleConfig TextLevel.text1).minSize ≤ s ∧ s ≤ (scaleConfig TextLevel.text1).maxSize := ⟨hmin2.le, hmax2.le⟩
    unfold TEXT_SCALE_MAPPING
    simp only [findLevel]
    rw [if_pos p1]
  | text2 =>
    have hmin2 : (40 : ℚ) < s := hmin
    have hmax2 : s < (48 : ℚ) := hmax
    have n1 : ¬((scaleConfig TextLevel.text1).minSize ≤ s ∧ s ≤ (scaleConfig TextLevel.text1).maxSize) :=
      fun hc => absurd hc.1 (not_le.mpr (lt_of_lt_of_le hmax2 (by decide)))
    have p2 : (scaleConfig TextLevel.text2).minSize ≤ s ∧ s ≤ (scaleConfig TextLevel.text2).maxSize := ⟨hmin2.le, hmax2.le⟩
    unfold TEXT_SCALE_MAPPING
    simp only [findLevel]
    rw [if_neg n1, if_pos p2]
  | text3 =>
    have hmin2 : (32 : ℚ) < s := hmin
    have hmax2 : s < (40 : ℚ) := hmax
    have n1 : ¬((scaleConfig TextLevel.text1).minSize ≤ s ∧ s ≤ (scaleConfig TextLevel.text1).maxSize) :=
      fun hc => absurd hc.1 (not_le.mpr (lt_of_lt_of_le hmax2 (by decide)))
    have n2 : ¬((scaleConfig TextLevel.text2).minSize ≤ s ∧ s ≤ (scaleConfig TextLevel.text2).maxSize) :=
      fun hc => absurd hc.1 (not_le.mpr (lt_of_lt_of_le hmax2 (by decide)))
    have p3 : (scaleConfig TextLevel.text3).minSize ≤ s ∧ s ≤ (scaleConfig TextLevel.text3).maxSize := ⟨hmin2.le, hmax2.le⟩
    unfold TEXT_SCALE_MAPPING
    simp only [findLevel]
    rw [if_neg n1, if_neg n2, if_pos p3]
  | text4 =>
    have hmin2 : (28 : ℚ) < s := hmin
    have hmax2 : s < (32 : ℚ) := hmax
    have n1 : ¬((scaleConfig TextLevel.text1).minSize ≤ s ∧ s ≤ (scaleConfig TextLevel.text1).maxSize) :=
      fun hc => absurd hc.1 (not_le.mpr (lt_of_lt_of_le hmax2 (by decide)))
    have n2 : ¬((scaleConfig TextLevel.text2).minSize ≤ s ∧ s ≤ (scaleConfig TextLevel.text2).maxSize) :=
      fun hc => absurd hc.1 (not_le.mpr (lt_of_lt_of_le hmax2 (by decide)))
    have n3 : ¬((scaleConfig TextLevel.text3).minSize ≤ s ∧ s ≤ (scaleConfig TextLevel.text3).maxSize) :=
      fun hc => absurd hc.1 (not_le.mpr (lt_of_lt_of_le hmax2 (by decide)))
    have p4 : (scaleConfig TextLevel.text4).minSize ≤ s ∧ s ≤ (scaleConfig TextLevel.text4).maxSize := ⟨hmin2.le, hmax2.le⟩
    unfold TEXT_SCALE_MAPPING
    simp only [findLevel]
    rw [if_neg n1, if_neg n2, if_neg n3, if_pos p4]
  | text5 =>
    have hmin2 : (24 : ℚ) < s := hmin
    have hmax2 : s < (28 : ℚ) := hmax
    have n1 : ¬((scaleConfig TextLevel.text1).minSize ≤ s ∧ s ≤ (scaleConfig TextLevel.text1).maxSize) :=
      fun hc => absurd hc.1 (not_le.mpr (lt_of_lt_of_le hmax2 (by decide)))
    have n2 : ¬((scaleConfig TextLevel.text2).minSize ≤ s ∧ s ≤ (scaleConfig TextLevel.text2).maxSize) :=
      fun hc => absurd hc.1 (not_le.mpr (lt_of_lt_of_le hmax2 (by decide)))
    have n3 : ¬((scaleConfig TextLevel.text3).minSize ≤ s ∧ s ≤ (scaleConfig TextLevel.text3).maxSize) :=
      fun hc => absurd hc.1 (not_le.mpr (lt_of_lt_of_le hmax2 (by decide)))
    have n4 : ¬((scaleConfig TextLevel.text4).minSize ≤ s ∧ s ≤ (scaleConfig TextLevel.text4).maxSize) :=
      fun hc => absurd hc.1 (not_le.mpr (lt_of_lt_of_le hmax2 (by decide)))
    have p5 : (scaleConfig TextLevel.text5).minSize ≤ s ∧ s ≤ (scaleConfig TextLevel.text5).maxSize := ⟨hmin2.le, hmax2.le⟩
    unfold TEXT_SCALE_MAPPING
    simp only [findLevel]
    rw [if_neg n1, if_neg n2, if_neg n3, if_neg n4, if_pos p5]
  | text6 =>
    have hmin2 : (20 : ℚ) < s := hmin
    have hmax2 : s < (24 : ℚ) := hmax
    have n1 : ¬((scaleConfig TextLevel.text1).minSize ≤ s ∧ s ≤ (scaleConfig TextLevel.text1).maxSize) :=
      fun hc => absurd hc.1 (not_le.mpr (lt_of_lt_of_le hmax2 (by decide)))
    have n2 : ¬((scaleConfig TextLevel.text2).minSize ≤ s ∧ s ≤ (scaleConfig TextLevel.text2).maxSize) :=
      fun hc => absurd hc.1 (not_le.mpr (lt_of_lt_of_le hmax2 (by decide)))
    have n3 : ¬((scaleConfig TextLevel.text3).minSize ≤ s ∧ s ≤ (scaleConfig TextLevel.text3).maxSize) :=
      fun hc => absurd hc.1 (not_le.mpr (lt_of_lt_of_le hmax2 (by decide)))
    have n4 : ¬((scaleConfig TextLevel.text4).minSize ≤ s ∧ s ≤ (scaleConfig TextLevel.text4).maxSize) :=
      fun hc => absurd hc.1 (not_le.mpr (lt_of_lt_of_le hmax2 (by decide)))
    have n5 : ¬((scaleConfig TextLevel.text5).minSize ≤ s ∧ s ≤ (scaleConfig TextLevel.text5).maxSize) :=
      fun hc => absurd hc.1 (not_le.mpr (lt_of_lt_of_le hmax2 (by decide)))
    have p6 : (scaleConfig TextLevel.text6).minSize ≤ s ∧ s ≤ (scaleConfig TextLevel.text6).maxSize := ⟨hmin2.le, hmax2.le⟩
    unfold TEXT_SCALE_MAPPING
    simp only [findLevel]
    rw [if_neg n1, if_neg n2, if_neg n3, if_neg n4, if_neg n5, if_pos p6]
  | text7 =>
    have hmin2 : (18 : ℚ) < s := hmin
    have hmax2 : s < (20 : ℚ) := hmax
    have n1 : ¬((scaleConfig TextLevel.text1).minSize ≤ s ∧ s ≤ (scaleConfig TextLevel.text1).maxSize) :=
      fun hc => absurd hc.1 (not_le.mpr (lt_of_lt_of_le hmax2 (by decide)))
    have n2 : ¬((scaleConfig TextLevel.text2).minSize ≤ s ∧ s ≤ (scaleConfig TextLevel.text2).maxSize) :=
      fun hc => absurd hc.1 (not_le.mpr (lt_of_lt_of_le hmax2 (by decide)))
    have n3 : ¬((scaleConfig TextLevel.text3).minSize ≤ s ∧ s ≤ (scaleConfig TextLevel.text3).maxSize) :=
      fun hc => absurd hc.1 (not_le.mpr (lt_of_lt_of_le hmax2 (by decide)))
    have n4 : ¬((scaleConfig TextLevel.text4).minSize ≤ s ∧ s ≤ (scaleConfig TextLevel.text4).maxSize) :=
      fun hc => absurd hc.1 (not_le.mpr (lt_of_lt_of_le hmax2 (by decide)))
    have n5 : ¬((scaleConfig TextLevel.text5).minSize ≤ s ∧ s ≤ (scaleConfig TextLevel.text5).maxSize) :=
      fun hc => absurd hc.1 (not_le.mpr (lt_of_lt_of_le hmax2 (by decide)))
    have n6 : ¬((scaleConfig TextLevel.text6).minSize ≤ s ∧ s ≤ (scaleConfig TextLevel.text6).maxSize) :=
      fun hc => absurd hc.1 (not_le.mpr (lt_of_lt_of_le hmax2 (by decide)))
    have p7 : (scaleConfig TextLevel.text7).minSize ≤ s ∧ s ≤ (scaleConfig TextLevel.text7).maxSize := ⟨hmin2.le, hmax2.le⟩
    unfold TEXT_SCALE_MAPPING
    simp only [findLevel]
    rw [if_neg n1, if_neg n2, if_neg n3, if_neg n4, if_neg n5, if_neg n6, if_pos p7]
  | text8 =>
    have hmin2 : (16 : ℚ) < s := hmin
    have hmax2 : s < (18 : ℚ) := hmax
    have n1 : ¬((scaleConfig TextLevel.text1).minSize ≤ s ∧ s ≤ (scaleConfig TextLevel.text1).maxSize) :=
      fun hc => absurd hc.1 (not_le.mpr (lt_of_lt_of_le hmax2 (by decide)))
    have n2 : ¬((scaleConfig TextLevel.text2).minSize ≤ s ∧ s ≤ (scaleConfig TextLevel.text2).maxSize) :=
      fun hc => absurd hc.1 (not_le.mpr (lt_of_lt_of_le hmax2 (by decide)))
    have n3 : ¬((scaleConfig TextLevel.text3).minSize ≤ s ∧ s ≤ (scaleConfig TextLevel.text3).maxSize) :=
      fun hc => absurd hc.1 (not_le.mpr (lt_of_lt_of_le hmax2 (by decide)))
    have n4 : ¬((scaleConfig TextLevel.text4).minSize ≤ s ∧ s ≤ (scaleConfig TextLevel.text4).maxSize) :=
      fun hc => absurd hc.1 (not_le.mpr (lt_of_lt_of_le hmax2 (by decide)))
    have n5 : ¬((scaleConfig TextLevel.text5).minSize ≤ s ∧ s ≤ (scaleConfig TextLevel.text5).maxSize) :=
      fun hc => absurd hc.1 (not_le.mpr (lt_of_lt_of_le hmax2 (by decide)))
    have n6 : ¬((scaleConfig TextLevel.text6).minSize ≤ s ∧ s ≤ (scaleConfig TextLevel.text6).maxSize) :=
      fun hc => absurd hc.1 (not_le.mpr (lt_of_lt_of_le hmax2 (by decide)))
    have n7 : ¬((scaleConfig TextLevel.text7).minSize ≤ s ∧ s ≤ (scaleConfig TextLevel.text7).maxSize) :=
      fun hc => absurd hc.1 (not_le.mpr (lt_of_lt_of_le hmax2 (by decide)))
    have p8 : (scaleConfig TextLevel.text8).minSize ≤ s ∧ s ≤ (scaleConfig TextLevel.text8).maxSize := ⟨hmin2.le, hmax2.le⟩
    unfold TEXT_SCALE_MAPPING
    simp only [findLevel]
    rw [if_neg n1, if_neg n2, if_neg n3, if_neg n4, if_neg n5, if_neg n6, if_neg n7, if_pos p8]
  | text9 =>
    have hmin2 : (14 : ℚ) < s := hmin
    have hmax2 : s < (16 : ℚ) := hmax
    have n1 : ¬((scaleConfig TextLevel.text1).minSize ≤ s ∧ s ≤ (scaleConfig TextLevel.text1).maxSize) :=
      fun hc => absurd hc.1 (not_le.mpr (lt_of_lt_of_le hmax2 (by decide)))
    have n2 : ¬((scaleConfig TextLevel.text2).minSize ≤ s ∧ s ≤ (scaleConfig TextLevel.text2).maxSize) :=
      fun hc => absurd hc.1 (not_le.mpr (lt_of_lt_of_le hmax2 (by decide)))
    have n3 : ¬((scaleConfig TextLevel.text3).minSize ≤ s ∧ s ≤ (scaleConfig TextLevel.text3).maxSize) :=
      fun hc => absurd hc.1 (not_le.mpr (lt_of_lt_of_le hmax2 (by decide)))
    have n4 : ¬((scaleConfig TextLevel.text4).minSize ≤ s ∧ s ≤ (scaleConfig TextLevel.text4).maxSize) :=
      fun hc => absurd hc.1 (not_le.mpr (lt_of_lt_of_le hmax2 (by decide)))
    have n5 : ¬((scaleConfig TextLevel.text5).minSize ≤ s ∧ s ≤ (scaleConfig TextLevel.text5).maxSize) :=
      fun hc => absurd hc.1 (not_le.mpr (lt_of_lt_of_le hmax2 (by decide)))
    have n6 : ¬((scaleConfig TextLevel.text6).minSize ≤ s ∧ s ≤ (scaleConfig TextLevel.text6).maxSize) :=
      fun hc => absurd hc.1 (not_le.mpr (lt_of_lt_of_le hmax2 (by decide)))
    have n7 : ¬((scaleConfig TextLevel.text7).minSize ≤ s ∧ s ≤ (scaleConfig TextLevel.text7).maxSize) :=
      fun hc => absurd hc.1 (not_le.mpr (lt_of_lt_of_le hmax2 (by decide)))
    have n8 : ¬((scaleConfig TextLevel.text8).minSize ≤ s ∧ s ≤ (scaleConfig TextLevel.text8).maxSize) :=
      fun hc => absurd hc.1 (not_le.mpr (lt_of_lt_of_le hmax2 (by decide)))
    have p9 : (scaleConfig TextLevel.text9).minSize ≤ s ∧ s ≤ (scaleConfig TextLevel.text9).maxSize := ⟨hmin2.le, hmax2.le⟩
    unfold TEXT_SCALE_MAPPING
    simp only [findLevel]
    rw [if_neg n1, if_neg n2, if_neg n3, if_neg n4, if_neg n5, if_neg n6, if_neg n7, if_neg n8, if_pos p9]
  | text10 =>
    have hmin2 : (12 : ℚ) < s := hmin
    have hmax2 : s < (14 : ℚ) := hmax
    have n1 : ¬((scaleConfig TextLevel.text1).minSize ≤ s ∧ s ≤ (scaleConfig TextLevel.text1).maxSize) :=
      fun hc => absurd hc.1 (not_le.mpr (lt_of_lt_of_le hmax2 (by decide)))
    have n2 : ¬((scaleConfig TextLevel.text2).minSize ≤ s ∧ s ≤ (scaleConfig TextLevel.text2).maxSize) :=
      fun hc => absurd hc.1 (not_le.mpr (lt_of_lt_of_le hmax2 (by decide)))
    have n3 : ¬((scaleConfig TextLevel.text3).minSize ≤ s ∧ s ≤ (scaleConfig TextLevel.text3).maxSize) :=
      fun hc => absurd hc.1 (not_le.mpr (lt_of_lt_of_le hmax2 (by decide)))
    have n4 : ¬((scaleConfig TextLevel.text4).minSize ≤ s ∧ s ≤ (scaleConfig TextLevel.text4).maxSize) :=
      fun hc => absurd hc.1 (not_le.mpr (lt_of_lt_of_le hmax2 (by decide)))
    have n5 : ¬((scaleConfig TextLevel.text5).minSize ≤ s ∧ s ≤ (scaleConfig TextLevel.text5).maxSize) :=
      fun hc => absurd hc.1 (not_le.mpr (lt_of_lt_of_le hmax2 (by decide)))
    have n6 : ¬((scaleConfig TextLevel.text6).minSize ≤ s ∧ s ≤ (scaleConfig TextLevel.text6).maxSize) :=
      fun hc => absurd hc.1 (not_le.mpr (lt_of_lt_of_le hmax2 (by decide)))
    have n7 : ¬((scaleConfig TextLevel.text7).minSize ≤ s ∧ s ≤ (scaleConfig TextLevel.text7).maxSize) :=
      fun hc => absurd hc.1 (not_le.mpr (lt_of_lt_of_le hmax2 (by decide)))
    have n8 : ¬((scaleConfig TextLevel.text8).minSize ≤ s ∧ s ≤ (scaleConfig TextLevel.text8).maxSize) :=
      fun hc => absurd hc.1 (not_le.mpr (lt_of_lt_of_le hmax2 (by decide)))
    have n9 : ¬((scaleConfig TextLevel.text9).minSize ≤ s ∧ s ≤ (scaleConfig TextLevel.text9).maxSize) :=
      fun hc => absurd hc.1 (not_le.mpr (lt_of_lt_of_le hmax2 (by decide)))
    have p10 : (scaleConfig TextLevel.text10).minSize ≤ s ∧ s ≤ (scaleConfig TextLevel.text10).maxSize := ⟨hmin2.le, hmax2.le⟩
    unfold TEXT_SCALE_MAPPING
    simp only [findLevel]
    rw [if_neg n1, if_neg n2, if_neg n3, if_neg n4, if_neg n5, if_neg n6, if_neg n7, if_neg n8, if_neg n9, if_pos p10]

theorem dtl_strict_inside (s : ℚ) (lv : TextLevel)
    (hmin : (scaleConfig lv).minSize < s) (hmax : s < (scaleConfig lv).maxSize) :
    determineTextLevel s = lv := by
  unfold determineTextLevel
  rw [findLevel_strict_inside s lv hmin hmax]

theorem outside_cases (s : ℚ) (h : outsideAllRanges s) :
    s < 12 ∨ (48 < s ∧ s < 56) ∨ 64 < s := by
  have h1 : ¬((scaleConfig TextLevel.text1).minSize ≤ s ∧ s ≤ (scaleConfig TextLevel.text1).maxSize) :=
    h (.text1, scaleConfig .text1) (by simp [TEXT_SCALE_MAPPING])
  have h2 : ¬((scaleConfig TextLevel.text2).minSize ≤ s ∧ s ≤ (scaleConfig TextLevel.text2).maxSize) :=
    h (.text2, scaleConfig .text2) (by simp [TEXT_SCALE_MAPPING])
  have h3 : ¬((scaleConfig TextLevel.text3).minSize ≤ s ∧ s ≤ (scaleConfig TextLevel.text3).maxSize) :=
    h (.text3, scaleConfig .text3) (by simp [TEXT_SCALE_MAPPING])
  have h4 : ¬((scaleConfig TextLevel.text4).minSize ≤ s ∧ s ≤ (scaleConfig TextLevel.text4).maxSize) :=
    h (.text4, scaleConfig .text4) (by simp [TEXT_SCALE_MAPPING])
  have h5 : ¬((scaleConfig TextLevel.text5).minSize ≤ s ∧ s ≤ (scaleConfig TextLevel.text5).maxSize) :=
    h (.text5, scaleConfig .text5) (by simp [TEXT_SCALE_MAPPING])
  have h6 : ¬((scaleConfig TextLevel.text6).minSize ≤ s ∧ s ≤ (scaleConfig TextLevel.text6).maxSize) :=
    h (.text6, scaleConfig .text6) (by simp [TEXT_SCALE_MAPPING])
  have h7 : ¬((scaleConfig TextLevel.text7).minSize ≤ s ∧ s ≤ (scaleConfig TextLevel.text7).maxSize) :=
    h (.text7, scaleConfig .text7) (by simp [TEXT_SCALE_MAPPING])
  have h8 : ¬((scaleConfig TextLevel.text8).minSize ≤ s ∧ s ≤ (scaleConfig TextLevel.text8).maxSize) :=
    h (.text8, scaleConfig .text8) (by simp [TEXT_SCALE_MAPPING])
  have h9 : ¬((scaleConfig TextLevel.text9).minSize ≤ s ∧ s ≤ (scaleConfig TextLevel.text9).maxSize) :=
    h (.text9, scaleConfig .text9) (by simp [TEXT_SCALE_MAPPING])
  have h10 : ¬((scaleConfig TextLevel.text10).minSize ≤ s ∧ s ≤ (scaleConfig TextLevel.text10).maxSize) :=
    h (.text10, scaleConfig .text10) (by simp [TEXT_SCALE_MAPPING])
  by_contra hc
  push_neg at hc
  obtain ⟨hA, hB, hC⟩ := hc
  rcases le_or_lt s 48 with hs | hs
  · rcases le_or_lt s 14 with hcut | hcut
    · exact h10 ⟨show (12 : ℚ) ≤ s by linarith, show s ≤ (14 : ℚ) by linarith⟩
    rcases le_or_lt s 16 with hcut | hcut
    · exact h9 ⟨show (14 : ℚ) ≤ s by linarith, show s ≤ (16 : ℚ) by linarith⟩
    rcases le_or_lt s 18 with hcut | hcut
    · exact h8 ⟨show (16 : ℚ) ≤ s by linarith, show s ≤ (18 : ℚ) by linarith⟩
    rcases le_or_lt s 20 with hcut | hcut
    · exact h7 ⟨show (18 : ℚ) ≤ s by linarith, show s ≤ (20 : ℚ) by linarith⟩
    rcases le_or_lt s 24 with hcut | hcut
    · exact h6 ⟨show (20 : ℚ) ≤ s by linarith, show s ≤ (24 : ℚ) by linarith⟩
    rcases le_or_lt s 28 with hcut | hcut
    · exact h5 ⟨show (24 : ℚ) ≤ s by linarith, show s ≤ (28 : ℚ) by linarith⟩
    rcases le_or_lt s 32 with hcut | hcut
    · exact h4 ⟨show (28 : ℚ) ≤ s by linarith, show s ≤ (32 : ℚ) by linarith⟩
    rcases le_or_lt s 40 with hcut | hcut
    · exact h3 ⟨show (32 : ℚ) ≤ s by linarith, show s ≤ (40 : ℚ) by linarith⟩
    · exact h2 ⟨show (40 : ℚ) ≤ s by linarith, show s ≤ (48 : ℚ) by linarith⟩
  · have h56 : 56 ≤ s := hB hs
    exact h1 ⟨show (56 : ℚ) ≤ s by linarith, show s ≤ (64 : ℚ) by linarith⟩

theorem dtl_outside_gt64 (s : ℚ) (h : outsideAllRanges s) (h64 : 64 < s) :
    determineTextLevel s = .text1 := by
  unfold determineTextLevel
  rw [findLevel_none_of_outside s h, if_pos (by linarith : (56 : ℚ) ≤ s)]

theorem dtl_outside_gap (s : ℚ) (h : outsideAllRanges s) (ha : 48 < s)
    (hb : s < 56) : determineTextLevel s = .text2 := by
  unfold determineTextLevel
  rw [findLevel_none_of_outside s h, if_neg (by linarith : ¬ (56 : ℚ) ≤ s),
    if_pos (by linarith : (40 : ℚ) ≤ s)]

theorem dtl_outside_lt12 (s : ℚ) (h : outsideAllRanges s) (h12 : s < 12) :
    determineTextLevel s = .text10 := by
  unfold determineTextLevel
  rw [findLevel_none_of_outside s h]
  rw [if_neg (by linarith : ¬ (56 : ℚ) ≤ s), if_neg (by linarith : ¬ (40 : ℚ) ≤ s),
    if_neg (by linarith : ¬ (32 : ℚ) ≤ s), if_neg (by linarith : ¬ (28 : ℚ) ≤ s),
    if_neg (by linarith : ¬ (24 : ℚ) ≤ s), if_neg (by linarith : ¬ (20 : ℚ) ≤ s),
    if_neg (by linarith : ¬ (18 : ℚ) ≤ s), if_neg (by linarith : ¬ (16 : ℚ) ≤ s),
    if_neg (by linarith : ¬ (14 : ℚ) ≤ s)]

theorem levelNumber_le_ten (l : TextLevel) : levelNumber l ≤ 10 := by
  cases l <;> simp [levelNumber]

/-- C5 (confirmed): `determineTextLevel` is total by construction — every
rational font size is mapped to exactly one of the ten levels — and,
restricted to pixel sizes outside all documented table ranges, it is a
non-increasing step function of the size: a larger size yields the same or a
lower-numbered level, following the fallback staircase (≥56 → text1 down to
<14 → text10). -/
theorem C5_fallback_staircase_monotone (s1 s2 : ℚ)
    (h1 : outsideAllRanges s1) (h2 : outsideAllRanges s2) (hle : s1 ≤ s2) :
    levelNumber (determineTextLevel s2) ≤ levelNumber (determineTextLevel s1) := by
  rcases outside_cases s1 h1 with ha | ⟨hb1, hb2⟩ | hc
  · rw [dtl_outside_lt12 s1 h1 ha]
    exact le_trans (levelNumber_le_ten _) (by simp [levelNumber])
  · rw [dtl_outside_gap s1 h1 hb1 hb2]
    rcases outside_cases s2 h2 with ha2 | ⟨hb12, hb22⟩ | hc2
    · linarith
    · rw [dtl_outside_gap s2 h2 hb12 hb22]
    · rw [dtl_outside_gt64 s2 h2 hc2]
      simp [levelNumber]
  · rw [dtl_outside_gt64 s1 h1 hc, dtl_outside_gt64 s2 h2 (by linarith)]

/-- C5 witness: 50 lies in the uncovered gap (48, 56) and 70 above the table;
the fallback maps them to text2 and text1 respectively, non-increasing. -/
theorem C5_witness :
    levelNumber (determineTextLevel 70) ≤ levelNumber (determineTextLevel 50) :=
  C5_fallback_staircase_monotone 50 70 (by decide) (by decide) (by norm_num)

/-- C4 (confirmed): the typography confidence always lies between the 0.5
base and the 1.0 cap, and whenever the resolved pixel size is strictly inside
a documented level range and the resolved weight belongs to that level
declared weight set, the confidence computed for the level chosen by
`determineTextLevel` is at least 0.8 (in fact both bonuses fire and the
capped value is exactly 1). -/
theorem C4_confidence_bounds (s : ℚ) (fw : Str) (lv : TextLevel) (w : FontWeight) :
    ((1/2 : ℚ) ≤ calculateTypographyConfidence s fw lv w ∧
      calculateTypographyConfidence s fw lv w ≤ 1) ∧
    ((scaleConfig lv).minSize < s → s < (scaleConfig lv).maxSize →
      w ∈ (scaleConfig lv).weights →
      (4/5 : ℚ) ≤ calculateTypographyConfidence s fw (determineTextLevel s) w) := by
  constructor
  · unfold calculateTypographyConfidence
    constructor
    · apply le_min _ (by norm_num)
      split_ifs <;> norm_num
    · exact min_le_right _ _
  · intro hmin hmax hw
    rw [dtl_strict_inside s lv hmin hmax]
    unfold calculateTypographyConfidence
    rw [if_pos ⟨le_of_lt hmin, le_of_lt hmax⟩, if_pos hw]
    rw [min_def]
    norm_num

/-- C4 witness: size 33 is strictly inside the text3 range (32, 40) and
regular is an allowed text3 weight; the hypotheses are discharged at this
concrete input and the confidence reaches 0.8. -/
theorem C4_witness :
    (4/5 : ℚ) ≤ calculateTypographyConfidence 33 [] (determineTextLevel 33) .regular :=
  (C4_confidence_bounds 33 [] .text3 .regular).2 (by decide) (by decide) (by decide)

theorem calculateColorConfidence_self (c context category : Str) :
    calculateColorConfidence c c context category = 4/5 ∨
    calculateColorConfidence c c context category = 1 := by
  unfold calculateColorConfidence
  rw [if_pos (beq_self_eq_true c)]
  split_ifs with h1
  · right
    rw [min_def]
    norm_num
  · left
    rw [min_def]
    norm_num

/-- Invariant of the best-match fold: either no match has been seen and the
highest confidence is 0, or the best match carries the highest confidence and
that confidence is 0.8 or 1. -/
def BestInv (st : Option SkinMatch × ℚ) : Prop :=
  (st.1 = none ∧ st.2 = 0) ∨
  (∃ bm, st.1 = some bm ∧ bm.confidence = st.2 ∧ (st.2 = 4/5 ∨ st.2 = 1))

theorem considerEntry_preserves (nc ctx : Str) (st : Option SkinMatch × ℚ)
    (e : Str × Str × Str) (h : BestInv st) :
    BestInv (considerEntry nc ctx st e) := by
  unfold considerEntry
  split_ifs with h1 h2
  · have hceq : nc = normalizeColor e.2.2 := by
      have := h1
      unfold colorsMatch at this
      exact eq_of_beq this
    right
    refine ⟨_, rfl, rfl, ?_⟩
    rw [← hceq]
    exact calculateColorConfidence_self nc ctx e.1
  · exact h
  · exact h

theorem foldl_considerEntry_preserves (nc ctx : Str) (l : List (Str × Str × Str))
    (st : Option SkinMatch × ℚ) (h : BestInv st) :
    BestInv (l.foldl (considerEntry nc ctx) st) := by
  induction l generalizing st with
  | nil => exact h
  | cons e t ih => exact ih _ (considerEntry_preserves nc ctx st e h)

theorem considerEntry_hc_mono (nc ctx : Str) (st : Option SkinMatch × ℚ)
    (e : Str × Str × Str) : st.2 ≤ (considerEntry nc ctx st e).2 := by
  unfold considerEntry
  split_ifs with h1 h2
  · exact le_of_lt h2
  · exact le_refl _
  · exact le_refl _

theorem foldl_considerEntry_hc_mono (nc ctx : Str) (l : List (Str × Str × Str))
    (st : Option SkinMatch × ℚ) : st.2 ≤ (l.foldl (considerEntry nc ctx) st).2 := by
  induction l generalizing st with
  | nil => exact le_refl _
  | cons e t ih => exact le_trans (considerEntry_hc_mono nc ctx st e) (ih _)

theorem foldl_considerEntry_hc_ge (nc ctx : Str) (l : List (Str × Str × Str))
    (st : Option SkinMatch × ℚ) (e : Str × Str × Str) (hmem : e ∈ l)
    (hmatch : colorsMatch nc (normalizeColor e.2.2) = true) :
    calculateColorConfidence nc (normalizeColor e.2.2) ctx e.1 ≤
      (l.foldl (considerEntry nc ctx) st).2 := by
  induction l generalizing st with
  | nil => cases hmem
  | cons f t ih =>
    rcases List.mem_cons.mp hmem with rfl | hmem2
    · refine le_trans ?_ (foldl_considerEntry_hc_mono nc ctx t _)
      unfold considerEntry
      rw [if_pos hmatch]
      split_ifs with h2
      · exact le_refl _
      · exact le_of_not_lt h2
    · exact ih _ hmem2

/-- C6 (amended): every match reported by `findBestSkinVarMatch` has
confidence 0.8 or 1.0 — the +0.1 bonus fires for every exact match, because
the byte-identity comparison is made between the two already-normalized
colors, which are equal whenever a match exists at all — and the reported
confidence dominates the confidence of every matching table entry (the
highest-confidence candidate wins, first such entry on ties). -/
theorem C6_match_confidence (color property element : Str) (m : SkinMatch)
    (h : findBestSkinVarMatch color property element = some m) :
    (m.confidence = 4/5 ∨ m.confidence = 1) ∧
    ∀ e ∈ skinVarsEntries,
      colorsMatch (normalizeColor color) (normalizeColor e.2.2) = true →
      calculateColorConfidence (normalizeColor color) (normalizeColor e.2.2)
        (determineColorContext property element) e.1 ≤ m.confidence := by
  simp only [findBestSkinVarMatch] at h
  have hP := foldl_considerEntry_preserves (normalizeColor color)
    (determineColorContext property element) skinVarsEntries (none, 0)
    (Or.inl ⟨rfl, rfl⟩)
  rcases hP with ⟨hnone, _⟩ | ⟨bm, hsome, hconf, hv⟩
  · rw [hnone] at h
    cases h
  · rw [hsome] at h
    injection h with hbm
    subst hbm
    constructor
    · rw [hconf]
      exact hv
    · intro e hmem hmatch
      rw [hconf]
      exact foldl_considerEntry_hc_ge _ _ skinVarsEntries (none, 0) e hmem hmatch

/-- C6 witness: the literal "#1a1a1a" with property "color" on a div matches
the text.primary entry with confidence 1. -/
theorem C6_witness :
    ((⟨str "skinVars.colors.primary", str "text", 1⟩ : SkinMatch).confidence = 4/5 ∨
      (⟨str "skinVars.colors.primary", str "text", 1⟩ : SkinMatch).confidence = 1) ∧
    ∀ e ∈ skinVarsEntries,
      colorsMatch (normalizeColor (str "#1a1a1a")) (normalizeColor e.2.2) = true →
      calculateColorConfidence (normalizeColor (str "#1a1a1a")) (normalizeColor e.2.2)
        (determineColorContext (str "color") (str "div")) e.1 ≤
        (⟨str "skinVars.colors.primary", str "text", 1⟩ : SkinMatch).confidence :=
  C6_match_confidence (str "#1a1a1a") (str "color") (str "div") _ (by decide)

/-- C6 counterexample: the literal "#1A1A1A" is byte-identical to no table
entry (the stored literal is lowercase "#1a1a1a"), yet the reported
confidence is 1.0 = 0.7 + 0.2 + 0.1, not the 0.9 = 0.7 + 0.2 the claim
predicts when the +0.1 byte-identity bonus is withheld: the bonus compares
post-normalization values and therefore always fires. -/
theorem C6_counterexample :
    findBestSkinVarMatch (str "#1A1A1A") (str "color") (str "div") =
      some ⟨str "skinVars.colors.primary", str "text", 1⟩ ∧
    (str "#1A1A1A") ∉ skinVarsEntries.map (fun e => e.2.2) ∧
    (1 : ℚ) ≠ 7/10 + 2/10 :=
  ⟨by decide, by decide, by norm_num⟩

theorem mapSet_cons_ne (e : Str × FigmaTextPreset) (t : List (Str × FigmaTextPreset))
    (k : Str) (v : FigmaTextPreset) (he : (e.1 == k) = false) :
    mapSet (e :: t) k v = e :: mapSet t k v := by
  unfold mapSet
  simp only [List.any_cons, he, Bool.false_or]
  split_ifs with h
  · simp [List.map, he]
  · simp

theorem mapSet_cons_eq (e : Str × FigmaTextPreset) (t : List (Str × FigmaTextPreset))
    (k : Str) (v : FigmaTextPreset) (he : (e.1 == k) = true) :
    mapSet (e :: t) k v = (k, v) :: t.map (fun x => if x.1 == k then (k, v) else x) := by
  unfold mapSet
  have hany : ((e :: t).any fun x => x.1 == k) = true := by simp [List.any_cons, he]
  rw [if_pos hany]
  simp only [List.map]
  rw [if_pos he]

theorem mapLookup_nil (k : Str) : mapLookup [] k = none := rfl

theorem mapLookup_cons (e : Str × FigmaTextPreset) (t : List (Str × FigmaTextPreset))
    (k : Str) :
    mapLookup (e :: t) k = if e.1 == k then some e.2 else mapLookup t k := by
  unfold mapLookup
  by_cases he : e.1 == k
  · simp [List.find?, he]
  · simp only [List.find?, Bool.not_eq_true] at he ⊢
    rw [he]
    simp [he]

theorem mapLookup_mapSet_self (m : List (Str × FigmaTextPreset)) (k : Str)
    (v : FigmaTextPreset) : mapLookup (mapSet m k v) k = some v := by
  induction m with
  | nil => simp [mapSet, mapLookup, List.find?]
  | cons e t ih =>
    by_cases he : e.1 == k
    · rw [mapSet_cons_eq e t k v he, mapLookup_cons]
      simp
    · rw [mapSet_cons_ne e t k v (by simpa using he), mapLookup_cons]
      simp only [he, if_false]
      · exact ih
      
theorem mapLookup_mapReplace (t : List (Str × FigmaTextPreset)) (k k2 : Str)
    (v : FigmaTextPreset) (hne : k2 ≠ k) :
    mapLookup (t.map (fun x => if x.1 == k then (k, v) else x)) k2 = mapLookup t k2 := by
  induction t with
  | nil => rfl
  | cons f r ih =>
    simp only [List.map]
    by_cases hf : f.1 == k
    · have hf1 : f.1 = k := eq_of_beq hf
      rw [if_pos hf, mapLookup_cons, mapLookup_cons]
      have hk2 : (((k, v) : Str × FigmaTextPreset).1 == k2) = false :=
        beq_eq_false_iff_ne.mpr (fun h => hne h.symm)
      have hfk2 : (f.1 == k2) = false :=
        beq_eq_false_iff_ne.mpr (fun h => hne (hf1 ▸ h).symm)
      rw [hk2, hfk2]
      simp only [if_false]
      exact ih
    · rw [if_neg hf, mapLookup_cons, mapLookup_cons]
      by_cases hf2 : f.1 == k2
      · simp [hf2]
      · simp only [hf2, if_false]
        exact ih

theorem mapLookup_mapSet_other (m : List (Str × FigmaTextPreset)) (k k2 : Str)
    (v : FigmaTextPreset) (hne : k2 ≠ k) :
    mapLookup (mapSet m k v) k2 = mapLookup m k2 := by
  induction m with
  | nil =>
    have hk2 : (k == k2) = false := beq_eq_false_iff_ne.mpr (fun h => hne h.symm)
    simp [mapSet, mapLookup, List.find?, hk2]
  | cons e t ih =>
    by_cases he : e.1 == k
    · rw [mapSet_cons_eq e t k v he, mapLookup_cons, mapLookup_cons]
      have hk2 : (((k, v) : Str × FigmaTextPreset).1 == k2) = false :=
        beq_eq_false_iff_ne.mpr (fun h => hne h.symm)
      have he2 : (e.1 == k2) = false :=
        beq_eq_false_iff_ne.mpr (fun h => hne ((eq_of_beq he) ▸ h).symm)
      rw [hk2, he2]
      simp only [if_false]
      exact mapLookup_mapReplace t k k2 v hne
    · rw [mapSet_cons_ne e t k v (by simpa using he), mapLookup_cons, mapLookup_cons]
      by_cases he2 : e.1 == k2
      · simp [he2]
      · simp only [he2, if_false]
        exact ih

theorem mapLookup_consolidStep (m : List (Str × FigmaTextPreset))
    (q : FigmaTextPreset) (k : Str) :
    mapLookup (consolidStep m q) k = keptStep k (mapLookup m k) q := by
  unfold consolidStep keptStep
  by_cases hk : presetKey q == k
  · have hkeq : presetKey q = k := eq_of_beq hk
    subst hkeq
    rw [if_pos hk]
    cases hl : mapLookup m (presetKey q) with
    | none => rw [mapLookup_mapSet_self]
    | some ex =>
      dsimp only
      split_ifs with hconf
      · rw [mapLookup_mapSet_self]
      · exact hl
  · have hkne : ¬ (presetKey q = k) := fun h => hk (h ▸ beq_self_eq_true _)
    rw [if_neg (by simpa using hk)]
    cases hl : mapLookup m (presetKey q) with
    | none => exact mapLookup_mapSet_other m (presetKey q) k q (fun h => hkne h.symm)
    | some ex =>
      dsimp only
      split_ifs with hconf
      · exact mapLookup_mapSet_other m (presetKey q) k q (fun h => hkne h.symm)
      · rfl

theorem mapLookup_consolidMap (presets : List FigmaTextPreset) (k : Str) :
    mapLookup (consolidMap presets) k = presets.foldl (keptStep k) none := by
  suffices hgen : ∀ (ps : List FigmaTextPreset) (m : List (Str × FigmaTextPreset)),
      mapLookup (ps.foldl consolidStep m) k = ps.foldl (keptStep k) (mapLookup m k) by
    have h0 := hgen presets []
    rw [consolidMap]
    rw [h0, mapLookup_nil]
  intro ps
  induction ps with
  | nil => intro m; rfl
  | cons q t ih =>
    intro m
    simp only [List.foldl_cons]
    rw [ih, mapLookup_consolidStep]

theorem kept_none (k : Str) (ps : List FigmaTextPreset)
    (h : ps.foldl (keptStep k) none = none) : ∀ q ∈ ps, presetKey q ≠ k := by
  induction ps using List.reverseRecOn with
  | nil => intro q hq; cases hq
  | append_singleton ps q ih =>
    intro r hr
    rw [List.foldl_append, List.foldl_cons, List.foldl_nil] at h
    cases hacc : ps.foldl (keptStep k) none with
    | none =>
      rw [hacc] at h
      unfold keptStep at h
      by_cases hk : presetKey q == k
      · rw [if_pos hk] at h
        cases h
      · rcases List.mem_append.mp hr with h1 | h2
        · exact ih hacc r h1
        · have hrq : r = q := List.mem_singleton.mp h2
          subst hrq
          exact fun hc => hk (by rw [hc]; exact beq_self_eq_true k)
    | some ex =>
      rw [hacc] at h
      unfold keptStep at h
      by_cases hk : presetKey q == k
      · rw [if_pos hk] at h
        dsimp only at h
        split_ifs at h <;> cases h
      · rw [if_neg hk] at h
        cases h

theorem kept_spec (k : Str) (ps : List FigmaTextPreset) :
    ∀ p, ps.foldl (keptStep k) none = some p →
      presetKey p = k ∧ ∃ l1 l2, ps = l1 ++ p :: l2 ∧
        (∀ q ∈ l1, presetKey q = k → q.confidenceScore < p.confidenceScore) ∧
        (∀ q ∈ l2, presetKey q = k → q.confidenceScore ≤ p.confidenceScore) := by
  induction ps using List.reverseRecOn with
  | nil => intro p h; cases h
  | append_singleton ps q ih =>
    intro p h
    rw [List.foldl_append, List.foldl_cons, List.foldl_nil] at h
    cases hacc : ps.foldl (keptStep k) none with
    | none =>
      rw [hacc] at h
      unfold keptStep at h
      by_cases hk : presetKey q == k
      · rw [if_pos hk] at h
        injection h with hpq
        subst hpq
        refine ⟨eq_of_beq hk, ps, [], by simp, ?_, by simp⟩
        intro r hr hrk
        exact absurd hrk (kept_none k ps hacc r hr)
      · rw [if_neg hk] at h
        cases h
    | some ex =>
      rw [hacc] at h
      unfold keptStep at h
      by_cases hk : presetKey q == k
      · rw [if_pos hk] at h
        dsimp only at h
        by_cases hconf : q.confidenceScore > ex.confidenceScore
        · rw [if_pos hconf] at h
          injection h with hpq
          subst hpq
          obtain ⟨hexk, l1, l2, hps, hlt, hle⟩ := ih ex hacc
          refine ⟨eq_of_beq hk, ps, [], by simp, ?_, by simp⟩
          intro r hr hrk
          rw [hps] at hr
          rcases List.mem_append.mp hr with h1 | h2
          · exact lt_trans (hlt r h1 hrk) hconf
          · rcases List.mem_cons.mp h2 with rfl | h3
            · exact hconf
            · exact lt_of_le_of_lt (hle r h3 hrk) hconf
        · rw [if_neg hconf] at h
          injection h with hpq
          have hpe : p = ex := hpq.symm
          subst hpe
          obtain ⟨hexk, l1, l2, hps, hlt, hle⟩ := ih p hacc
          refine ⟨hexk, l1, l2 ++ [q], by rw [hps]; simp, hlt, ?_⟩
          intro r hr hrk
          rcases List.mem_append.mp hr with h1 | h2
          · exact hle r h1 hrk
          · have hrq : r = q := List.mem_singleton.mp h2
            subst hrq
            exact le_of_not_lt hconf
      · rw [if_neg hk] at h
        injection h with hpq
        have hpe : p = ex := hpq.symm
        subst hpe
        obtain ⟨hexk, l1, l2, hps, hlt, hle⟩ := ih p hacc
        refine ⟨hexk, l1, l2 ++ [q], by rw [hps]; simp, hlt, ?_⟩
        intro r hr hrk
        rcases List.mem_append.mp hr with h1 | h2
        · exact hle r h1 hrk
        · have hrq : r = q := List.mem_singleton.mp h2
          subst hrq
          exact absurd hrk (fun hc => hk (by rw [hc]; exact beq_self_eq_true k))

/-- C10 (confirmed): in `consolidatePresets`, the entry stored for a
(preset, variant) key is the first-collected occurrence attaining the maximal
confidence for that key: every earlier same-key preset has strictly smaller
confidence and every later same-key preset has smaller-or-equal confidence —
so an entry produced by an earlier strategy is never displaced by an
equal-confidence entry from a later strategy (replacement requires strictly
greater confidence), and the kept entry survives into the sorted output. -/
theorem C10_consolidation_keeps_first_max (presets : List FigmaTextPreset)
    (k : Str) (p : FigmaTextPreset)
    (h : mapLookup (consolidMap presets) k = some p) :
    presetKey p = k ∧ p ∈ consolidatePresets presets ∧
    ∃ l1 l2, presets = l1 ++ p :: l2 ∧
      (∀ q ∈ l1, presetKey q = k → q.confidenceScore < p.confidenceScore) ∧
      (∀ q ∈ l2, presetKey q = k → q.confidenceScore ≤ p.confidenceScore) := by
  have h0 := h
  rw [mapLookup_consolidMap] at h
  obtain ⟨hk, l1, l2, hps, hlt, hle⟩ := kept_spec k presets p h
  refine ⟨hk, ?_, l1, l2, hps, hlt, hle⟩
  unfold mapLookup at h0
  rcases Option.map_eq_some'.mp h0 with ⟨e, hfind, he2⟩
  have hmem : p ∈ (consolidMap presets).map (fun e => e.2) :=
    List.mem_map.mpr ⟨e, List.mem_of_find?_eq_some hfind, he2⟩
  exact (sortDescBy_perm _ _).mem_iff.mpr hmem

/-- C10 witness: two presets with the same key "text3-regular" and equal
confidence 1.0; consolidation keeps the first-inserted entry (originalName
"text-preset-3/regular"), not the later equal-confidence one. -/
theorem C10_witness :
    presetKey ⟨str "text3", str "regular", str "text-preset-3/regular", none, 1⟩ =
      str "text3-regular" ∧
    (⟨str "text3", str "regular", str "text-preset-3/regular", none, 1⟩ : FigmaTextPreset) ∈
      consolidatePresets
        [⟨str "text3", str "regular", str "text-preset-3/regular", none, 1⟩,
         ⟨str "text3", str "regular", str "Detectado por contexto semântico", none, 1⟩] ∧
    ∃ l1 l2,
      [(⟨str "text3", str "regular", str "text-preset-3/regular", none, 1⟩ : FigmaTextPreset),
       ⟨str "text3", str "regular", str "Detectado por contexto semântico", none, 1⟩] =
        l1 ++ (⟨str "text3", str "regular", str "text-preset-3/regular", none, 1⟩ : FigmaTextPreset) :: l2 ∧
      (∀ q ∈ l1, presetKey q = str "text3-regular" →
        q.confidenceScore < (1 : ℚ)) ∧
      (∀ q ∈ l2, presetKey q = str "text3-regular" →
        q.confidenceScore ≤ (1 : ℚ)) :=
  C10_consolidation_keeps_first_max
    [⟨str "text3", str "regular", str "text-preset-3/regular", none, 1⟩,
     ⟨str "text3", str "regular", str "Detectado por contexto semântico", none, 1⟩]
    (str "text3-regular") _ (by decide)

theorem positions_ite_ne_nil (ps : List Str) (c : Bool) :
    (if ps.isEmpty || c then ps ++ [str "inline"] else ps) ≠ [] := by
  split_ifs with h
  · simp
  · intro hc
    rw [hc] at h
    simp at h

theorem struct_ite_cases (ft : List Str) :
    (if ft.length > 3 then str "complex"
     else if ft.length > 1 then str "multi-field"
     else str "simple") = str "complex" ∨
    (if ft.length > 3 then str "complex"
     else if ft.length > 1 then str "multi-field"
     else str "simple") = str "multi-field" ∨
    (if ft.length > 3 then str "complex"
     else if ft.length > 1 then str "multi-field"
     else str "simple") = str "simple" := by
  split_ifs <;> simp

theorem feedback_type_ite_cases (p1 p2 p3 p4 : Prop) [Decidable p1] [Decidable p2]
    [Decidable p3] [Decidable p4] :
    (if p1 then str "error" else if p2 then str "success"
     else if p3 then str "info" else if p4 then str "warning"
     else str "generic") = str "error" ∨
    (if p1 then str "error" else if p2 then str "success"
     else if p3 then str "info" else if p4 then str "warning"
     else str "generic") = str "success" ∨
    (if p1 then str "error" else if p2 then str "success"
     else if p3 then str "info" else if p4 then str "warning"
     else str "generic") = str "info" ∨
    (if p1 then str "error" else if p2 then str "success"
     else if p3 then str "info" else if p4 then str "warning"
     else str "generic") = str "warning" ∨
    (if p1 then str "error" else if p2 then str "success"
     else if p3 then str "info" else if p4 then str "warning"
     else str "generic") = str "generic" := by
  split_ifs <;> simp

/-- C8 (amended): the found=false-implies-zero-fields invariant does not hold
for the three named fields, because they are populated on every input: the
buttons positions list always contains at least one element (defaulting to
["inline"] when no positional probe matches), the forms structure string is
always one of the non-empty strings "simple"/"multi-field"/"complex", and
the feedback type string is always one of the non-empty strings
"error"/"success"/"info"/"warning"/"generic". -/
theorem C8_default_fields_always_populated (code : Str) :
    (extractButtons code).positions ≠ [] ∧
    ((extractForms code).struct = str "complex" ∨
      (extractForms code).struct = str "multi-field" ∨
      (extractForms code).struct = str "simple") ∧
    ((extractFeedback code).type_ = str "error" ∨
      (extractFeedback code).type_ = str "success" ∨
      (extractFeedback code).type_ = str "info" ∨
      (extractFeedback code).type_ = str "warning" ∨
      (extractFeedback code).type_ = str "generic") :=
  ⟨positions_ite_ne_nil _ _, struct_ite_cases _, feedback_type_ite_cases _ _ _ _⟩

/-- C8 counterexample: on the empty markup every probe fails, so
buttons.found, forms.found and feedback.found are all false, yet
buttons.positions = ["inline"], forms.structure = "simple" and
feedback.type = "generic" — none of them at its zero-equivalent value,
contradicting the claimed invariant. -/
theorem C8_counterexample :
    (extractButtons []).found = false ∧ (extractButtons []).positions = [str "inline"] ∧
    (extractForms []).found = false ∧ (extractForms []).struct = str "simple" ∧
    (extractFeedback []).found = false ∧ (extractFeedback []).type_ = str "generic" ∧
    (extractButtons []).positions ≠ [] ∧ (extractForms []).struct ≠ [] ∧
    (extractFeedback []).type_ ≠ [] := by decide

theorem dedupByNameAux_mem_not_seen (l : List ComponentSuggestion) :
    ∀ (seen : List Str) (s : ComponentSuggestion), s ∈ dedupByNameAux seen l →
      seen.contains s.component.name = false := by
  induction l with
  | nil => intro seen s h; cases h
  | cons x t ih =>
    intro seen s h
    unfold dedupByNameAux at h
    split_ifs at h with hx
    · exact ih seen s h
    · rcases List.mem_cons.mp h with rfl | h2
      · simpa using hx
      · have h3 := ih (x.component.name :: seen) s h2
        simp only [List.contains_cons, Bool.or_eq_false_iff] at h3
        exact h3.2

theorem dedupByNameAux_pairwise (l : List ComponentSuggestion) :
    ∀ (seen : List Str), (dedupByNameAux seen l).Pairwise
      (fun a b => a.component.name ≠ b.component.name) := by
  induction l with
  | nil => intro seen; exact List.Pairwise.nil
  | cons x t ih =>
    intro seen
    unfold dedupByNameAux
    split_ifs with hx
    · exact ih seen
    · refine List.pairwise_cons.mpr ⟨?_, ih _⟩
      intro b hb
      have h3 := dedupByNameAux_mem_not_seen t (x.component.name :: seen) b hb
      simp only [List.contains_cons, Bool.or_eq_false_iff] at h3
      intro hc
      have := h3.1
      rw [hc] at this
      simp at this

theorem dedupByNameAux_find (l : List ComponentSuggestion) :
    ∀ (seen : List Str) (s : ComponentSuggestion), s ∈ dedupByNameAux seen l →
      l.find? (fun t => t.component.name == s.component.name) = some s := by
  induction l with
  | nil => intro seen s h; cases h
  | cons x t ih =>
    intro seen s h
    unfold dedupByNameAux at h
    split_ifs at h with hx
    · have hne : (x.component.name == s.component.name) = false := by
        rw [beq_eq_false_iff_ne]
        intro hc
        have h3 := dedupByNameAux_mem_not_seen t seen s h
        rw [← hc] at h3
        rw [hx] at h3
        cases h3
      rw [List.find?_cons, hne]
      exact ih seen s h
    · rcases List.mem_cons.mp h with rfl | h2
      · rw [List.find?_cons, beq_self_eq_true]
      · have h3 := dedupByNameAux_mem_not_seen t (x.component.name :: seen) s h2
        simp only [List.contains_cons, Bool.or_eq_false_iff] at h3
        have hne : (x.component.name == s.component.name) = false := by
          rw [beq_eq_false_iff_ne]
          intro hc
          have := h3.1
          rw [hc] at this
          simp at this
        rw [List.find?_cons, hne]
        exact ih _ s h2

/-- C2 (confirmed): for every analysis input and every catalog, the
suggestion list returned by `findMisticaEquivalents` has at most 10 entries,
contains no two entries with the same component name, and is sorted in
descending order of score. -/
theorem C2_bounded_deduped_sorted (elements : UIElements)
    (structure_ : StructuralAnalysis) (patterns : UIPatterns)
    (catalog : List MisticaComponent) :
    (findMisticaEquivalents elements structure_ patterns catalog).length ≤ 10 ∧
    (findMisticaEquivalents elements structure_ patterns catalog).Pairwise
      (fun a b => a.component.name ≠ b.component.name) ∧
    (findMisticaEquivalents elements structure_ patterns catalog).Sorted
      (fun a b => b.score ≤ a.score) := by
  unfold findMisticaEquivalents
  refine ⟨List.length_take_le _ _, ?_, ?_⟩
  · apply List.Pairwise.sublist (List.take_sublist _ _)
    exact (List.Perm.pairwise_iff (fun h => Ne.symm h) (sortDescBy_perm _ _)).mpr
      (dedupByNameAux_pairwise _ [])
  · exact List.Pairwise.sublist (List.take_sublist _ _) (sorted_sortDescBy _ _)

/-- C3 (amended): when the same component name is produced by several
suggestion tiers, the entry that survives in the output of
`findMisticaEquivalents` is the FIRST-collected occurrence of that name
(tier order: special cases, element mappings, pattern fallbacks), not the
highest-scoring one: the source deduplicates before sorting. -/
theorem C3_kept_is_first_occurrence (elements : UIElements)
    (structure_ : StructuralAnalysis) (patterns : UIPatterns)
    (catalog : List MisticaComponent) (sug : ComponentSuggestion)
    (h : sug ∈ findMisticaEquivalents elements structure_ patterns catalog) :
    (collectSuggestions elements structure_ patterns catalog).find?
      (fun t => t.component.name == sug.component.name) = some sug := by
  unfold findMisticaEquivalents at h
  have h1 := List.mem_of_mem_take h
  have h2 : sug ∈ dedupByName (collectSuggestions elements structure_ patterns catalog) :=
    (sortDescBy_perm _ _).mem_iff.mp h1
  exact dedupByNameAux_find _ [] sug h2

/-- C3 witness: on the card-container input, the suggestion surviving for
DataCard is the tier-2 occurrence with score 60 — the first collected one. -/
theorem C3_witness :
    (collectSuggestions cardContainersElements defaultStructure cardOnlyPatterns
      [dataCardComponent]).find?
      (fun t => t.component.name ==
        (⟨dataCardComponent, str "Para organização e espaçamento de elementos",
          (60 : ℤ)⟩ : ComponentSuggestion).component.name) =
      some ⟨dataCardComponent, str "Para organização e espaçamento de elementos", 60⟩ :=
  C3_kept_is_first_occurrence cardContainersElements defaultStructure cardOnlyPatterns
    [dataCardComponent] _ (by decide)

/-- C3 counterexample: the containers tier collects DataCard at score 60 and
the card-pattern tier collects DataCard at score 80; the code keeps the
first-collected score-60 entry, while the claimed canonical order (sort,
then dedup) would keep the score-80 entry. -/
theorem C3_counterexample :
    findMisticaEquivalents cardContainersElements defaultStructure cardOnlyPatterns
      [dataCardComponent] =
      [⟨dataCardComponent, str "Para organização e espaçamento de elementos", 60⟩] ∧
    canonicalOrderSuggestions cardContainersElements defaultStructure cardOnlyPatterns
      [dataCardComponent] =
      [⟨dataCardComponent, str "Detectado padrão de card com container estruturado", 80⟩] ∧
    (⟨dataCardComponent, str "Detectado padrão de card com container estruturado",
      (80 : ℤ)⟩ : ComponentSuggestion) ∈
      collectSuggestions cardContainersElements defaultStructure cardOnlyPatterns
        [dataCardComponent] :=
  ⟨by decide, by decide, by decide⟩

/-- C9 (amended): invoked with a null catalog, findMisticaEquivalents throws a
TypeError (a null-dereference, not a checked precondition) exactly when some
tier would access the catalog — a special-case tier, a detected element
family, or a relevant pattern flag; when nothing is detected it performs no
catalog access and silently returns the empty suggestion list, exactly the
value the claim says it must never silently return (and which a non-null
catalog also yields on such inputs). -/
theorem C9_null_catalog_behavior (elements : UIElements)
    (structure_ : StructuralAnalysis) (patterns : UIPatterns) :
    (catalogAccessTriggered elements patterns = true →
      findMisticaEquivalentsNullCatalog elements structure_ patterns =
        .error (str "TypeError: Cannot read properties of null")) ∧
    (catalogAccessTriggered elements patterns = false →
      findMisticaEquivalentsNullCatalog elements structure_ patterns = .ok [] ∧
      ∀ catalog, findMisticaEquivalents elements structure_ patterns catalog = []) := by
  constructor
  · intro htrig
    unfold findMisticaEquivalentsNullCatalog
    split_ifs with h1 h2 h3 h4
    · rfl
    · rfl
    · rfl
    · rfl
    · exfalso
      simp only [catalogAccessTriggered, Bool.or_eq_true, not_or] at htrig h1 h2 h3 h4
      tauto
  · intro hfalse
    simp only [catalogAccessTriggered, Bool.or_eq_false_iff] at hfalse
    obtain ⟨⟨⟨⟨⟨⟨⟨⟨⟨⟨⟨⟨⟨hA, hB, hC⟩, hD⟩, hE⟩, hF⟩, hG⟩, hH⟩, hI⟩, hJ⟩, hK⟩, hL⟩, hM⟩, hN⟩, hO⟩ := hfalse
    constructor
    · simp [findMisticaEquivalentsNullCatalog, hA, hB, hC, hD, hE, hF, hG, hH, hI,
        hJ, hK, hL, hM, hN, hO]
    · intro catalog
      simp [findMisticaEquivalents, collectSuggestions, createElementMappings,
        getPatternBasedSuggestions, dedupByName, dedupByNameAux, sortDescBy,
        List.flatMap_cons, List.flatMap_nil, hA, hB, hC, hD, hE, hF, hG, hH, hI,
        hJ, hK, hL, hM, hN, hO]

/-- C9 witness: on the all-false analysis nothing triggers a catalog access;
the null-catalog run returns ok-empty and a one-component catalog also yields
no suggestions. -/
theorem C9_witness :
    findMisticaEquivalentsNullCatalog emptyElements defaultStructure emptyPatterns =
      Except.ok [] ∧
    findMisticaEquivalents emptyElements defaultStructure emptyPatterns
      [dataCardComponent] = [] :=
  ⟨((C9_null_catalog_behavior emptyElements defaultStructure emptyPatterns).2
      (by decide)).1,
   ((C9_null_catalog_behavior emptyElements defaultStructure emptyPatterns).2
      (by decide)).2 [dataCardComponent]⟩

/-- C9 counterexample: with a null catalog and an all-false analysis the
mapper silently returns the empty suggestion list instead of failing fast. -/
theorem C9_counterexample :
    findMisticaEquivalentsNullCatalog emptyElements defaultStructure emptyPatterns =
      Except.ok [] := rfl
